import Mathlib

/-!
Verification development for the GetALot proof-of-delivery (POD) system.

This file shallowly embeds the data model and the mutating request handlers
of the repository:

* `supabase/migrations/003_create_packages_and_audit.sql` and
  `005_create_pods_table.sql` — tables, the `unique_package_pod` constraint,
  `generate_pod_reference`, and the `prevent_pod_modification` /
  `prevent_pod_deletion` triggers;
* the edge functions `complete-pod` and `lock-pod`
  (`supabase/functions/lock-pod/index.ts`), `update-package` and
  `create-staff` (`unnamed/part_003`), `driver-pickup` (`unnamed/part_004`),
  and `log-audit` (`unnamed/part_005`).

Identifiers (UUIDs) are modelled as `Nat`; timestamps as `String` values
passed in by the caller (`now`), matching `new Date().toISOString()`.
Authentication (JWT verification) is out of scope: a handler invocation
carries the already-authenticated caller's user id.
-/

namespace GetALot

/-- Staff roles, from the `staff_role` enum (`001_create_staff_profiles.sql`
    plus the `collection` value added in `unnamed/part_002`). -/
inductive Role
  | warehouse
  | driver
  | collection
  | admin
deriving DecidableEq, Repr

/-- Package statuses, from the `package_status` enum
    (`003_create_packages_and_audit.sql` plus the values added in
    `unnamed/part_002`). -/
inductive PackageStatus
  | pending
  | notified
  | in_transit
  | ready_for_collection
  | collected
  | returned
deriving DecidableEq, Repr

/-- A row of `staff_profiles`. -/
structure StaffProfile where
  id : Nat
  userId : Nat
  role : Role
  fullName : String
  email : String
  isActive : Bool
deriving DecidableEq, Repr

/-- A row of `pods` (`005_create_pods_table.sql`). -/
structure Pod where
  id : Nat
  podReference : String
  packageId : Nat
  packageReference : String
  receiverEmail : String
  staffId : Nat
  staffName : String
  staffEmail : String
  signatureUrl : String
  signaturePath : String
  signedAt : String
  completedAt : String
  pdfUrl : Option String
  pdfPath : Option String
  pdfGeneratedAt : Option String
  isLocked : Bool
  lockedAt : Option String
  notes : Option String
deriving DecidableEq, Repr

/-- A row of `packages` (`003_create_packages_and_audit.sql` plus the
    columns added by later migrations). -/
structure Package where
  id : Nat
  reference : String
  receiverEmail : String
  notes : Option String
  status : PackageStatus
  podId : Option Nat
  collectedAt : Option String
  collectedBy : Option Nat
  pickedUpBy : Option Nat
  pickedUpAt : Option String
  signatureUrl : Option String
  signaturePath : Option String
  signedAt : Option String
  updatedAt : String
deriving DecidableEq, Repr

/-- A row of `audit_logs`.  The JSONB `metadata` column is an open document
    carrying display context only; it is not modelled. -/
structure AuditLogEntry where
  action : String
  entityType : String
  entityId : Nat
  performedBy : Nat
deriving DecidableEq, Repr

/-- The database state the handlers operate on.  `podSeq` is the global
    Postgres sequence `pod_reference_seq` (next value to be handed out);
    `nextPodId` supplies fresh pod row ids (`gen_random_uuid()`). -/
structure DB where
  staff : List StaffProfile
  packages : List Package
  pods : List Pod
  audits : List AuditLogEntry
  podSeq : Nat
  nextPodId : Nat
deriving Repr

/-- The error taxonomy of the specification (section 7). -/
inductive ErrKind
  | notFound
  | forbidden
  | deactivated
  | locked
  | alreadyLocked
  | duplicatePod
  | alreadyCollected
  | invalidTransition
  | validationError
  | internalError
deriving DecidableEq, Repr

/-- `LPAD(s, 4, '0')` from Postgres: pad on the left with zeros to length 4,
    truncating on the right when the input is already longer. -/
def lpad4 (s : String) : String :=
  if s.length ≥ 4 then ⟨s.toList.take 4⟩
  else ⟨List.replicate (4 - s.length) '0' ++ s.toList⟩

/-- JavaScript truthiness of an optional string (`if (pdf_url)`):
    absent and empty strings are falsy. -/
def strTruthy : Option String → Bool
  | none => false
  | some s => s ≠ ""

/-- `generate_pod_reference()` from `005_create_pods_table.sql`: the year of
    the current date concatenated with the next value of the single global
    sequence `pod_reference_seq`.  Returns the reference, the sequence value
    used, and the advanced database. -/
def generate_pod_reference (year : Nat) (db : DB) : String × Nat × DB :=
  ("POD-" ++ toString year ++ "-" ++ lpad4 (toString db.podSeq),
   db.podSeq,
   { db with podSeq := db.podSeq + 1 })

/-- `SELECT ... FROM staff_profiles WHERE user_id = ... .single()`. -/
def findStaffByUser (db : DB) (userId : Nat) : Option StaffProfile :=
  db.staff.find? (fun s => s.userId == userId)

/-- `SELECT ... FROM packages WHERE id = ... .single()`. -/
def findPackage (db : DB) (pkgId : Nat) : Option Package :=
  db.packages.find? (fun p => p.id == pkgId)

/-- `SELECT ... FROM pods WHERE id = ... .single()`. -/
def findPod (db : DB) (podId : Nat) : Option Pod :=
  db.pods.find? (fun p => p.id == podId)

/-- `SELECT ... FROM pods WHERE package_id = ... .single()`. -/
def findPodByPackage (db : DB) (pkgId : Nat) : Option Pod :=
  db.pods.find? (fun p => p.packageId == pkgId)

/-- `INSERT INTO audit_logs ...` (performed with the service-role client). -/
def appendAuditEntry (db : DB) (e : AuditLogEntry) : DB :=
  { db with audits := db.audits ++ [e] }

/-- `UPDATE packages SET ... WHERE id = pkgId`.  The row-level
    `BEFORE UPDATE` trigger `prevent_package_modification_when_locked`
    (tamper-proofing migration staged with `012_...`, never dropped) raises
    `PACKAGE_LOCKED` for any affected row whose package has a locked pod,
    aborting the whole statement; the trigger's pre-raise audit insert
    rolls back together with the raised exception, so a blocked update
    returns `none` with the database unchanged.  Triggers fire for the
    service-role client too (only row-level security is bypassed).  The
    `trigger_update_packages_updated_at` touch is reflected by the update
    functions the handlers pass in, which always set `updatedAt`. -/
def dbUpdatePackage (db : DB) (pkgId : Nat) (f : Package → Package) :
    Option DB :=
  if db.packages.any (fun p => p.id == pkgId &&
      db.pods.any (fun q => q.packageId == p.id && q.isLocked)) then
    none
  else
    some { db with packages := db.packages.map (fun p => if p.id == pkgId then f p else p) }

/-- The package update as performed by `complete-pod`, which tolerates a
    failed update (`console.warn('Failed to update package status')` —
    "Don't fail the whole operation"): on a trigger abort the database is
    simply left unchanged. -/
def dbUpdatePackageTolerant (db : DB) (pkgId : Nat) (f : Package → Package) : DB :=
  match dbUpdatePackage db pkgId f with
  | some db' => db'
  | none => db

/-- `INSERT INTO pods ...`.  The `unique_package_pod UNIQUE (package_id)`
    constraint makes the insert itself the atomic uniqueness check: it fails
    (Postgres error 23505) when a pod for the same package already exists.
    The row id and `pod_reference` are assigned by column defaults. -/
def dbInsertPod (db : DB) (year : Nat) (mkPod : Nat → String → Pod) :
    Option (DB × Pod) :=
  let (ref, _, db1) := generate_pod_reference year db
  let pod := mkPod db1.nextPodId ref
  if db1.pods.any (fun q => q.packageId == pod.packageId) then
    none
  else
    some ({ db1 with pods := db1.pods ++ [pod], nextPodId := db1.nextPodId + 1 }, pod)

/-- A generic `UPDATE` on `pods` with an arbitrary row filter and an
    arbitrary field change.  The row-level `BEFORE UPDATE` trigger
    `prevent_pod_modification` raises for any affected row whose old
    `is_locked` is true, aborting the whole statement; the trigger consults
    no role, so this holds for every caller including admins and the
    service role (row-level security is bypassed by the service role, but
    triggers are not). -/
def dbUpdatePodsWhere (db : DB) (cond : Pod → Bool) (f : Pod → Pod) :
    Except String DB :=
  if db.pods.any (fun p => cond p && p.isLocked) then
    .error "POD record is locked and cannot be modified"
  else
    .ok { db with pods := db.pods.map (fun p => if cond p then f p else p) }

/-- A generic `DELETE` on `pods`.  The `BEFORE DELETE` trigger
    `prevent_pod_deletion` raises unconditionally for each affected row,
    again independent of the caller's role. -/
def dbDeletePodsWhere (db : DB) (cond : Pod → Bool) : Except String DB :=
  if db.pods.any cond then .error "POD records cannot be deleted"
  else .ok db

/-! ## Edge function `log-audit` (`unnamed/part_005`)

The handler verifies the JWT, requires `action`, `entity_type` and
`entity_id`, fetches the caller's staff profile purely for metadata
context (tolerating its absence), and inserts the entry with the
service-role client.  It performs no `is_active` and no role check. -/

structure LogAuditRequest where
  action : String
  entity_type : String
  entity_id : Nat
deriving DecidableEq, Repr

inductive LogAuditErr
  | missingFields
deriving DecidableEq, Repr

def logAuditKind : LogAuditErr → ErrKind
  | .missingFields => .validationError

def logAudit (db : DB) (userId : Nat) (req : LogAuditRequest) :
    DB × Except LogAuditErr AuditLogEntry :=
  if req.action == "" || req.entity_type == "" then
    (db, .error .missingFields)
  else
    let e : AuditLogEntry :=
      { action := req.action, entityType := req.entity_type,
        entityId := req.entity_id, performedBy := userId }
    (appendAuditEntry db e, .ok e)

/-! ## Edge function `driver-pickup` (`unnamed/part_004`)

Email delivery is an external collaborator; whether the notification email
was sent is passed in as the oracle `emailSent` (it controls only the
second audit entry). -/

inductive DriverPickupErr
  | profileNotFound
  | deactivated
  | roleForbidden
  | packageNotFound
  | invalidStatus    -- 400 "Invalid package status for pickup"
  | updateFailed     -- 500 "Failed to update package" (e.g. PACKAGE_LOCKED raise)
deriving DecidableEq, Repr

def driverPickupKind : DriverPickupErr → ErrKind
  | .profileNotFound => .notFound
  | .deactivated => .deactivated
  | .roleForbidden => .forbidden
  | .packageNotFound => .notFound
  | .invalidStatus => .invalidTransition
  | .updateFailed => .internalError

def driverPickup (db : DB) (userId : Nat) (packageId : Nat) (now : String)
    (emailSent : Bool) : DB × Except DriverPickupErr Package :=
  match findStaffByUser db userId with
  | none => (db, .error .profileNotFound)
  | some prof =>
    if !prof.isActive then (db, .error .deactivated)
    else if !(prof.role == .driver || prof.role == .admin) then
      (db, .error .roleForbidden)
    else match findPackage db packageId with
      | none => (db, .error .packageNotFound)
      | some pkg =>
        if !(pkg.status == .pending || pkg.status == .notified) then
          (db, .error .invalidStatus)
        else
          let upd : Package → Package := fun p =>
            { p with status := .in_transit, pickedUpBy := some userId,
                     pickedUpAt := some now, updatedAt := now }
          -- `if (updateError) ... return 500 'Failed to update package'`:
          -- the handler has no lock check of its own, so a locked-pod
          -- package makes the UPDATE raise PACKAGE_LOCKED and the handler
          -- returns here, before any audit logging.
          match dbUpdatePackage db packageId upd with
          | none => (db, .error .updateFailed)
          | some db1 =>
            let db2 := appendAuditEntry db1
              { action := "PACKAGE_PICKED_UP", entityType := "package",
                entityId := packageId, performedBy := userId }
            let db3 :=
              if emailSent then
                appendAuditEntry db2
                  { action := "PACKAGE_IN_TRANSIT_NOTIFICATION",
                    entityType := "package", entityId := packageId,
                    performedBy := userId }
              else db2
            (db3, .ok (upd pkg))

/-! ## Edge function `update-package` (`unnamed/part_003`, second file) -/

structure UpdatePackageRequest where
  package_id : Nat
  status : Option PackageStatus
  notes : Option String
  receiver_email : Option String
deriving DecidableEq, Repr

inductive UpdatePackageErr
  | profileNotFound
  | deactivated
  | roleForbidden
  | packageNotFound
  | packageLocked    -- 403 "Package is locked"
  | invalidEmail     -- 400 "Invalid email format"
  | updateFailed     -- 500 "Failed to update package"
deriving DecidableEq, Repr

def updatePackageKind : UpdatePackageErr → ErrKind
  | .profileNotFound => .notFound
  | .deactivated => .deactivated
  | .roleForbidden => .forbidden
  | .packageNotFound => .notFound
  | .packageLocked => .locked
  | .invalidEmail => .validationError
  | .updateFailed => .internalError

/-- `/^[^\s@]+@[^\s@]+\.[^\s@]+$/.test(receiver_email)`: one `@`, a
    nonempty whitespace-free local part, and a domain containing a dot
    that has at least one character on each side. -/
def emailRegexTest (s : String) : Bool :=
  match s.toList.splitOn '@' with
  | [l, d] =>
      !l.isEmpty && l.all (fun c => !c.isWhitespace) &&
      d.all (fun c => !c.isWhitespace) &&
      ((d.drop 1).dropLast.contains '.')
  | _ => false

/-- The `updateData` object built by `update-package` and applied in its
    single `UPDATE` (the `updated_at` touch matches both the explicit field
    and the `trigger_update_packages_updated_at` trigger). -/
def applyUpdatePackageData (req : UpdatePackageRequest) (userId : Nat)
    (now : String) (p : Package) : Package :=
  let p1 := { p with updatedAt := now }
  let p2 :=
    match req.status with
    | none => p1
    | some st =>
        if st == .collected then
          { p1 with status := st, collectedAt := some now,
                    collectedBy := some userId }
        else { p1 with status := st }
  let p3 :=
    match req.notes with
    | none => p2
    | some s => { p2 with notes := if s.trim != "" then some s.trim else none }
  match req.receiver_email with
  | none => p3
  | some e => { p3 with receiverEmail := e.toLower.trim }

def updatePackage (db : DB) (userId : Nat) (req : UpdatePackageRequest)
    (now : String) : DB × Except UpdatePackageErr Package :=
  match findStaffByUser db userId with
  | none => (db, .error .profileNotFound)
  | some prof =>
    if !prof.isActive then (db, .error .deactivated)
    else if !(prof.role == .warehouse || prof.role == .admin ||
              prof.role == .collection) then
      (db, .error .roleForbidden)
    else match findPackage db req.package_id with
      | none => (db, .error .packageNotFound)
      | some pkg =>
        -- `existingPackage.pods?.find(pod => pod.is_locked === true)`
        match db.pods.find? (fun q => q.packageId == pkg.id && q.isLocked) with
        | some _ =>
            (appendAuditEntry db
              { action := "PACKAGE_UPDATE_DENIED", entityType := "package",
                entityId := req.package_id, performedBy := userId },
             .error .packageLocked)
        | none =>
            if (match req.receiver_email with
                | some e => !emailRegexTest e
                | none => false) then
              (db, .error .invalidEmail)
            else
              let upd := applyUpdatePackageData req userId now
              -- `if (updateError) ... return 500 'Failed to update package'`
              match dbUpdatePackage db req.package_id upd with
              | none => (db, .error .updateFailed)
              | some db1 =>
                let db2 := appendAuditEntry db1
                  { action := "PACKAGE_UPDATED", entityType := "package",
                    entityId := req.package_id, performedBy := userId }
                (db2, .ok (upd pkg))

/-! ## Edge function `lock-pod` (`supabase/functions/lock-pod/index.ts`)

The handler is split at its only database write: `lockPodStart` covers
everything up to and including the creator-or-admin check (all reads), and
`lockPodTas` is the conditional
`UPDATE pods SET ... WHERE id = pod_id AND is_locked = false` — the atomic
false-to-true test-and-set — followed by the `POD_LOCKED` audit insert.
`lockPod` composes both, giving the sequential handler. -/

structure LockCfg where
  userId : Nat
  pod_id : Nat
  pdf_url : Option String
  pdf_path : Option String
  now : String
deriving DecidableEq, Repr

inductive LockPodErr
  | profileNotFound
  | deactivated
  | podNotFound
  | alreadyLockedPre  -- 400 "POD already locked"
  | lockDenied        -- 403 "Unauthorized to lock this POD"
  | lockConflict      -- 409 "POD was already locked" (PGRST116)
deriving DecidableEq, Repr

def lockPodKind : LockPodErr → ErrKind
  | .profileNotFound => .notFound
  | .deactivated => .deactivated
  | .podNotFound => .notFound
  | .alreadyLockedPre => .alreadyLocked
  | .lockDenied => .forbidden
  | .lockConflict => .alreadyLocked

/-- The `updateData` object of `lock-pod`: always `is_locked`/`locked_at`;
    the three PDF fields only under `if (pdf_url)` (JS truthiness), with
    `pdf_path: pdf_path || null`. -/
def lockUpdateData (cfg : LockCfg) (p : Pod) : Pod :=
  let p1 := { p with isLocked := true, lockedAt := some cfg.now }
  if strTruthy cfg.pdf_url then
    { p1 with pdfUrl := cfg.pdf_url,
              pdfPath := if strTruthy cfg.pdf_path then cfg.pdf_path else none,
              pdfGeneratedAt := some cfg.now }
  else p1

/-- Read phase of `lock-pod`: profile, `is_active`, pod fetch, the
    already-locked pre-check (before the authorization check), and the
    creator-or-admin check with its `POD_LOCK_DENIED` audit entry.
    `none` means all checks passed and the handler proceeds to the update. -/
def lockPodStart (db : DB) (cfg : LockCfg) :
    DB × Option (Except LockPodErr Pod) :=
  match findStaffByUser db cfg.userId with
  | none => (db, some (.error .profileNotFound))
  | some prof =>
    if !prof.isActive then (db, some (.error .deactivated))
    else match findPod db cfg.pod_id with
      | none => (db, some (.error .podNotFound))
      | some pod =>
        if pod.isLocked then (db, some (.error .alreadyLockedPre))
        else if pod.staffId != prof.id && prof.role != .admin then
          (appendAuditEntry db
            { action := "POD_LOCK_DENIED", entityType := "pod",
              entityId := cfg.pod_id, performedBy := cfg.userId },
           some (.error .lockDenied))
        else (db, none)

/-- Write phase of `lock-pod`: the conditional update matching only the
    unlocked row (`.eq('is_locked', false)`); zero matched rows surface as
    PGRST116 (409).  The `prevent_pod_modification` trigger passes because
    every matched row has `is_locked = false`.  On success the `POD_LOCKED`
    audit entry is inserted and the updated row returned. -/
def lockPodTas (db : DB) (cfg : LockCfg) : DB × Except LockPodErr Pod :=
  match db.pods.find? (fun q => q.id == cfg.pod_id && !q.isLocked) with
  | none => (db, .error .lockConflict)
  | some q =>
    let q' := lockUpdateData cfg q
    let db1 := { db with pods := db.pods.map (fun r =>
      if r.id == cfg.pod_id && !r.isLocked then lockUpdateData cfg r else r) }
    let db2 := appendAuditEntry db1
      { action := "POD_LOCKED", entityType := "pod",
        entityId := cfg.pod_id, performedBy := cfg.userId }
    (db2, .ok q')

def lockPod (db : DB) (cfg : LockCfg) : DB × Except LockPodErr Pod :=
  match lockPodStart db cfg with
  | (db1, some r) => (db1, r)
  | (db1, none) => lockPodTas db1 cfg

/-! ## Edge function `complete-pod` (second file of
`supabase/functions/lock-pod/index.ts`)

Split at the pod `INSERT`: `completePodCheck` is the read/validation
prefix (profile, `is_active`, role, required fields, package fetch, the
check-then-report duplicate lookup with its `POD_DUPLICATE_ATTEMPT` audit,
and the `collected` status guard); `completePodFinish` is the insert — the
point where `unique_package_pod` is enforced atomically — followed by the
`POD_CREATED` audit, the package update to `collected`, and the
`PACKAGE_COLLECTED` audit. -/

structure CompletePodRequest where
  package_id : Nat
  signature_url : String
  signature_path : String
  signed_at : String
  notes : Option String
deriving DecidableEq, Repr

inductive CompletePodErr
  | profileNotFound
  | deactivated
  | roleForbidden     -- 403 "Insufficient permissions to complete PODs"
  | missingFields
  | packageNotFound
  | duplicatePod      -- 409 "POD already exists for this package"
  | alreadyCollected  -- 400 "Package already collected"
  | insertFailed      -- 500 "Failed to create POD" (e.g. 23505 on unique_package_pod)
deriving DecidableEq, Repr

def completePodKind : CompletePodErr → ErrKind
  | .profileNotFound => .notFound
  | .deactivated => .deactivated
  | .roleForbidden => .forbidden
  | .missingFields => .validationError
  | .packageNotFound => .notFound
  | .duplicatePod => .duplicatePod
  | .alreadyCollected => .alreadyCollected
  | .insertFailed => .internalError

def completePodCheck (db : DB) (userId : Nat) (req : CompletePodRequest) :
    DB × Except CompletePodErr (StaffProfile × Package) :=
  match findStaffByUser db userId with
  | none => (db, .error .profileNotFound)
  | some prof =>
    if !prof.isActive then (db, .error .deactivated)
    else if !(prof.role == .collection || prof.role == .warehouse ||
              prof.role == .admin) then
      (db, .error .roleForbidden)
    else if req.signature_url == "" || req.signature_path == "" ||
            req.signed_at == "" then
      (db, .error .missingFields)
    else match findPackage db req.package_id with
      | none => (db, .error .packageNotFound)
      | some pkg =>
        match findPodByPackage db req.package_id with
        | some _ =>
            (appendAuditEntry db
              { action := "POD_DUPLICATE_ATTEMPT", entityType := "package",
                entityId := req.package_id, performedBy := userId },
             .error .duplicatePod)
        | none =>
          if pkg.status == .collected then (db, .error .alreadyCollected)
          else (db, .ok (prof, pkg))

def completePodFinish (db : DB) (userId : Nat) (req : CompletePodRequest)
    (prof : StaffProfile) (pkg : Package) (now : String) (year : Nat) :
    DB × Except CompletePodErr Pod :=
  match dbInsertPod db year (fun podId ref =>
    { id := podId, podReference := ref, packageId := pkg.id,
      packageReference := pkg.reference, receiverEmail := pkg.receiverEmail,
      staffId := prof.id, staffName := prof.fullName, staffEmail := prof.email,
      signatureUrl := req.signature_url, signaturePath := req.signature_path,
      signedAt := req.signed_at, completedAt := now,
      pdfUrl := none, pdfPath := none, pdfGeneratedAt := none,
      isLocked := false, lockedAt := none,
      notes := match req.notes with
        | some s => if s.trim != "" then some s.trim else pkg.notes
        | none => pkg.notes }) with
  | none => (db, .error .insertFailed)
  | some (db1, pod) =>
    let db2 := appendAuditEntry db1
      { action := "POD_CREATED", entityType := "pod",
        entityId := pod.id, performedBy := userId }
    let db3 := dbUpdatePackageTolerant db2 req.package_id (fun p =>
      { p with status := .collected, collectedAt := some now,
               collectedBy := some userId, podId := some pod.id,
               signatureUrl := some req.signature_url,
               signaturePath := some req.signature_path,
               signedAt := some req.signed_at, updatedAt := now })
    let db4 := appendAuditEntry db3
      { action := "PACKAGE_COLLECTED", entityType := "package",
        entityId := req.package_id, performedBy := userId }
    (db4, .ok pod)

def completePod (db : DB) (userId : Nat) (req : CompletePodRequest)
    (now : String) (year : Nat) : DB × Except CompletePodErr Pod :=
  match completePodCheck db userId req with
  | (db1, .error e) => (db1, .error e)
  | (db1, .ok (prof, pkg)) => completePodFinish db1 userId req prof pkg now year

/-! ## Interleaved executions

Two concurrent invocations of the same handler are modelled as two
instances of the handler's phase machine driven by an arbitrary schedule
(a list of booleans: `true` steps caller A, `false` steps caller B).  A
finished caller ignores further steps.  The phase granularity is exactly
the handlers' database round-trips: each phase is one atomic batch of
database work. -/

inductive LockPhase
  | start
  | checked
  | done (r : Except LockPodErr Pod)
deriving Repr

def lockStep (cfg : LockCfg) (db : DB) : LockPhase → DB × LockPhase
  | .start =>
      match lockPodStart db cfg with
      | (db1, some r) => (db1, .done r)
      | (db1, none) => (db1, .checked)
  | .checked =>
      let (db1, r) := lockPodTas db cfg
      (db1, .done r)
  | .done r => (db, .done r)

inductive CpPhase
  | start
  | checked (prof : StaffProfile) (pkg : Package)
  | done (r : Except CompletePodErr Pod)
deriving Repr

structure CpCfg where
  userId : Nat
  req : CompletePodRequest
  now : String
  year : Nat
deriving DecidableEq, Repr

def cpStep (cfg : CpCfg) (db : DB) : CpPhase → DB × CpPhase
  | .start =>
      match completePodCheck db cfg.userId cfg.req with
      | (db1, .error e) => (db1, .done (.error e))
      | (db1, .ok (prof, pkg)) => (db1, .checked prof pkg)
  | .checked prof pkg =>
      let (db1, r) := completePodFinish db cfg.userId cfg.req prof pkg cfg.now cfg.year
      (db1, .done r)
  | .done r => (db, .done r)

structure PairState (Ph : Type) where
  db : DB
  phA : Ph
  phB : Ph

def lockPairStep (ca cb : LockCfg) (s : PairState LockPhase) (who : Bool) :
    PairState LockPhase :=
  if who then
    let (db', ph') := lockStep ca s.db s.phA
    { s with db := db', phA := ph' }
  else
    let (db', ph') := lockStep cb s.db s.phB
    { s with db := db', phB := ph' }

def lockRunPair (ca cb : LockCfg) (s : PairState LockPhase)
    (sched : List Bool) : PairState LockPhase :=
  sched.foldl (lockPairStep ca cb) s

def cpPairStep (ca cb : CpCfg) (s : PairState CpPhase) (who : Bool) :
    PairState CpPhase :=
  if who then
    let (db', ph') := cpStep ca s.db s.phA
    { s with db := db', phA := ph' }
  else
    let (db', ph') := cpStep cb s.db s.phB
    { s with db := db', phB := ph' }

def cpRunPair (ca cb : CpCfg) (s : PairState CpPhase)
    (sched : List Bool) : PairState CpPhase :=
  sched.foldl (cpPairStep ca cb) s

/-! ## Well-formedness predicates and basic lemmas -/

/-- The pod rows with id `i` are exactly the single row `p`. -/
def PodsOK (db : DB) (i : Nat) (p : Pod) : Prop :=
  p ∈ db.pods ∧ p.id = i ∧ ∀ q ∈ db.pods, q.id = i → q = p

/-- The package rows with id `i` are exactly the single row `k`. -/
def PkgsOK (db : DB) (i : Nat) (k : Package) : Prop :=
  k ∈ db.packages ∧ k.id = i ∧ ∀ q ∈ db.packages, q.id = i → q = k

/-- No pod row references package `i`. -/
def NoPodFor (db : DB) (i : Nat) : Prop :=
  ∀ q ∈ db.pods, q.packageId ≠ i

/-- At most one pod per package — specification section 8, "Uniqueness". -/
def AtMostOnePodPerPackage (db : DB) : Prop :=
  ∀ p ∈ db.pods, ∀ q ∈ db.pods, p.packageId = q.packageId → p = q

/-- Some pod row references package `i`. -/
def HasPodFor (db : DB) (i : Nat) : Prop :=
  ∃ q ∈ db.pods, q.packageId = i

/-- The caller of a `lock-pod` invocation resolves (in the staff table
    `staff0`) to an active staff member who is the pod's creator (`sid`)
    or an admin. -/
def StaffAuthLock (staff0 : List StaffProfile) (cfg : LockCfg) (sid : Nat) : Prop :=
  ∃ st, staff0.find? (fun s => s.userId == cfg.userId) = some st ∧
    st.isActive = true ∧ (sid = st.id ∨ st.role = Role.admin)

/-- The caller of a `complete-pod` invocation targets package `i`, supplies
    the required fields, and resolves to an active staff member with an
    allowed role. -/
def StaffAuthCp (staff0 : List StaffProfile) (cfg : CpCfg) (i : Nat) : Prop :=
  cfg.req.package_id = i ∧ cfg.req.signature_url ≠ "" ∧
  cfg.req.signature_path ≠ "" ∧ cfg.req.signed_at ≠ "" ∧
  ∃ st, staff0.find? (fun s => s.userId == cfg.userId) = some st ∧
    st.isActive = true ∧
    (st.role = Role.collection ∨ st.role = Role.warehouse ∨ st.role = Role.admin)

def NotDoneL : LockPhase → Prop
  | .start => True
  | .checked => True
  | .done _ => False

def WonL : LockPhase → Prop
  | .done (.ok _) => True
  | _ => False

def LoserL : LockPhase → Prop
  | .start => True
  | .checked => True
  | .done (.error e) => lockPodKind e = ErrKind.alreadyLocked
  | .done (.ok _) => False

/-- Invariant of two interleaved `lock-pod` invocations on the pod `i`
    created by staff `sid`: while the pod is unlocked nobody has finished;
    once it is locked, exactly one caller has succeeded and the other can
    only still be running or have failed with an already-locked error. -/
def LockInv (staff0 : List StaffProfile) (i sid : Nat)
    (s : PairState LockPhase) : Prop :=
  s.db.staff = staff0 ∧
  ∃ p, PodsOK s.db i p ∧ p.staffId = sid ∧
    ((p.isLocked = false ∧ NotDoneL s.phA ∧ NotDoneL s.phB) ∨
     (p.isLocked = true ∧
       ((WonL s.phA ∧ LoserL s.phB) ∨ (WonL s.phB ∧ LoserL s.phA))))

def NotDoneCp (i : Nat) : CpPhase → Prop
  | .start => True
  | .checked _ pkg => pkg.id = i
  | .done _ => False

def WonCp : CpPhase → Prop
  | .done (.ok _) => True
  | _ => False

def LoserCp (i : Nat) : CpPhase → Prop
  | .start => True
  | .checked _ pkg => pkg.id = i
  | .done (.error e) => e = CompletePodErr.duplicatePod ∨ e = CompletePodErr.insertFailed
  | .done (.ok _) => False

/-- Invariant of two interleaved `complete-pod` invocations for package
    `i`: while no pod exists for the package nobody has finished; once one
    does, exactly one caller has succeeded and the other can only still be
    running or have failed with the duplicate error or the insert
    constraint violation. -/
def CpInv (staff0 : List StaffProfile) (i : Nat) (s : PairState CpPhase) : Prop :=
  s.db.staff = staff0 ∧
  ∃ k, PkgsOK s.db i k ∧
    ((NoPodFor s.db i ∧ k.status ≠ PackageStatus.collected ∧
        NotDoneCp i s.phA ∧ NotDoneCp i s.phB) ∨
     (HasPodFor s.db i ∧
       ((WonCp s.phA ∧ LoserCp i s.phB) ∨ (WonCp s.phB ∧ LoserCp i s.phA))))

/-! ## Concrete fixtures

Small database states used by the counterexample theorems and the
witnesses.  Staff ids/user-ids and row ids are arbitrary. -/

def stAdmin : StaffProfile :=
  { id := 1, userId := 11, role := .admin, fullName := "Alice Admin",
    email := "alice@example.com", isActive := true }

def stColl : StaffProfile :=
  { id := 2, userId := 12, role := .collection, fullName := "Carol Collection",
    email := "carol@example.com", isActive := true }

def stDriver : StaffProfile :=
  { id := 3, userId := 13, role := .driver, fullName := "Dan Driver",
    email := "dan@example.com", isActive := true }

def stInactive : StaffProfile :=
  { id := 4, userId := 14, role := .collection, fullName := "Ina Inactive",
    email := "ina@example.com", isActive := false }

def fxStaff : List StaffProfile := [stAdmin, stColl, stDriver, stInactive]

def fxPkg (st : PackageStatus) : Package :=
  { id := 100, reference := "PKG-20250101-AAAA", receiverEmail := "r@example.com",
    notes := none, status := st, podId := none, collectedAt := none,
    collectedBy := none, pickedUpBy := none, pickedUpAt := none,
    signatureUrl := none, signaturePath := none, signedAt := none,
    updatedAt := "t0" }

def fxPodUnlocked : Pod :=
  { id := 200, podReference := "POD-2025-0001", packageId := 100,
    packageReference := "PKG-20250101-AAAA", receiverEmail := "r@example.com",
    staffId := 2, staffName := "Carol Collection", staffEmail := "carol@example.com",
    signatureUrl := "sig-url", signaturePath := "sig-path", signedAt := "t1",
    completedAt := "t1", pdfUrl := none, pdfPath := none, pdfGeneratedAt := none,
    isLocked := false, lockedAt := none, notes := none }

def fxPodLocked : Pod :=
  { fxPodUnlocked with isLocked := true, lockedAt := some "t2" }

/-- A pending package, no pods. -/
def fxDbPending : DB :=
  { staff := fxStaff, packages := [fxPkg .pending], pods := [],
    audits := [], podSeq := 1, nextPodId := 500 }

/-- A returned package, no pods. -/
def fxDbReturned : DB :=
  { fxDbPending with packages := [fxPkg .returned] }

/-- A collected package, no pods. -/
def fxDbCollected : DB :=
  { fxDbPending with packages := [fxPkg .collected] }

/-- A pending package whose pod is locked (reachable because the package
    update in `complete-pod` is allowed to fail without failing the
    operation). -/
def fxDbLockedPending : DB :=
  { fxDbPending with pods := [fxPodLocked] }

/-- A pending package with an unlocked pod. -/
def fxDbUnlockedPending : DB :=
  { fxDbPending with pods := [fxPodUnlocked] }

def fxCpReq : CompletePodRequest :=
  { package_id := 100, signature_url := "sig-url", signature_path := "sig-path",
    signed_at := "t1", notes := none }

def fxLockCfgPdf : LockCfg :=
  { userId := 12, pod_id := 200, pdf_url := some "pdf-url",
    pdf_path := some "pdf-path", now := "t3" }

def fxLockCfgNoPdf : LockCfg :=
  { userId := 11, pod_id := 200, pdf_url := none, pdf_path := none, now := "t4" }

lemma find?_strengthen {α} {p q : α → Bool} {l : List α} {a : α}
    (h : l.find? p = some a) (hq : q a = true) :
    l.find? (fun x => p x && q x) = some a := by
  induction l with
  | nil => simp at h
  | cons b t ih =>
    by_cases hb : p b
    · rw [List.find?_cons_of_pos _ hb] at h
      injection h with h
      subst h
      exact List.find?_cons_of_pos _ (by simp [hb, hq])
    · rw [List.find?_cons_of_neg _ hb] at h
      rw [List.find?_cons_of_neg _ (by simp [hb])]
      exact ih h

lemma PodsOK.findPod_eq {db : DB} {i : Nat} {p : Pod} (h : PodsOK db i p) :
    findPod db i = some p := by
  obtain ⟨hm, hid, huniq⟩ := h
  unfold findPod
  cases hfind : db.pods.find? (fun q => q.id == i) with
  | none =>
      exact absurd (by simpa using List.find?_eq_none.mp hfind p hm) (by simp [hid])
  | some q =>
      have hq := List.find?_some hfind
      have hmem := List.mem_of_find?_eq_some hfind
      rw [huniq q hmem (by simpa using hq)]

lemma PodsOK.findUnlocked_eq {db : DB} {i : Nat} {p : Pod} (h : PodsOK db i p) :
    db.pods.find? (fun q => q.id == i && !q.isLocked) =
      (if p.isLocked then none else some p) := by
  obtain ⟨hm, hid, huniq⟩ := h
  by_cases hl : p.isLocked
  · simp only [hl, if_true]
    refine List.find?_eq_none.mpr (fun q hq hpred => ?_)
    have h1 : q.id = i := by
      have := (Bool.and_eq_true _ _).mp hpred |>.1
      simpa using this
    have h2 : q.isLocked = false := by
      have := (Bool.and_eq_true _ _).mp hpred |>.2
      simpa using this
    rw [huniq q hq h1] at h2
    rw [hl] at h2
    simp at h2
  · simp only [hl, if_false]
    have hlf : p.isLocked = false := by simpa using hl
    have hbase : findPod db i = some p := PodsOK.findPod_eq ⟨hm, hid, huniq⟩
    unfold findPod at hbase
    exact find?_strengthen hbase (by simp [hlf])

lemma PkgsOK.findPackage_eq {db : DB} {i : Nat} {k : Package}
    (h : PkgsOK db i k) : findPackage db i = some k := by
  obtain ⟨hm, hid, huniq⟩ := h
  unfold findPackage
  cases hfind : db.packages.find? (fun q => q.id == i) with
  | none =>
      exact absurd (by simpa using List.find?_eq_none.mp hfind k hm) (by simp [hid])
  | some q =>
      have hq := List.find?_some hfind
      have hmem := List.mem_of_find?_eq_some hfind
      rw [huniq q hmem (by simpa using hq)]

lemma NoPodFor.findPodByPackage_eq {db : DB} {i : Nat} (h : NoPodFor db i) :
    findPodByPackage db i = none := by
  unfold findPodByPackage
  exact List.find?_eq_none.mpr (fun q hq => by simpa using h q hq)

lemma lockUpdateData_id (cfg : LockCfg) (p : Pod) :
    (lockUpdateData cfg p).id = p.id := by
  unfold lockUpdateData
  split <;> rfl

lemma lockUpdateData_staffId (cfg : LockCfg) (p : Pod) :
    (lockUpdateData cfg p).staffId = p.staffId := by
  unfold lockUpdateData
  split <;> rfl

lemma lockUpdateData_packageId (cfg : LockCfg) (p : Pod) :
    (lockUpdateData cfg p).packageId = p.packageId := by
  unfold lockUpdateData
  split <;> rfl

lemma lockUpdateData_isLocked (cfg : LockCfg) (p : Pod) :
    (lockUpdateData cfg p).isLocked = true := by
  unfold lockUpdateData
  split <;> rfl

lemma appendAuditEntry_pods (db : DB) (e : AuditLogEntry) :
    (appendAuditEntry db e).pods = db.pods := rfl

lemma appendAuditEntry_staff (db : DB) (e : AuditLogEntry) :
    (appendAuditEntry db e).staff = db.staff := rfl

lemma appendAuditEntry_packages (db : DB) (e : AuditLogEntry) :
    (appendAuditEntry db e).packages = db.packages := rfl

lemma dbUpdatePackage_some {db : DB} {i : Nat} {f : Package → Package}
    {db' : DB} (h : dbUpdatePackage db i f = some db') :
    db'.pods = db.pods ∧ db'.staff = db.staff ∧
    db'.packages = db.packages.map (fun p => if p.id == i then f p else p) := by
  unfold dbUpdatePackage at h
  split at h
  · exact absurd h (by simp)
  · rw [Option.some.injEq] at h
    subst h
    exact ⟨rfl, rfl, rfl⟩

/-- When no row matched by the update has a locked pod, the
    `prevent_package_modification_when_locked` trigger passes and the
    `UPDATE` succeeds. -/
lemma dbUpdatePackage_ok {db : DB} {i : Nat} {f : Package → Package}
    (h : ∀ p ∈ db.packages, p.id = i →
         ∀ q ∈ db.pods, q.packageId = p.id → q.isLocked = false) :
    dbUpdatePackage db i f =
      some { db with packages := db.packages.map (fun p => if p.id == i then f p else p) } := by
  unfold dbUpdatePackage
  rw [if_neg]
  intro hc
  obtain ⟨p, hp, hpc⟩ := List.any_eq_true.mp hc
  rw [Bool.and_eq_true] at hpc
  obtain ⟨q, hq, hqc⟩ := List.any_eq_true.mp hpc.2
  rw [Bool.and_eq_true] at hqc
  have hfalse := h p hp (by simpa using hpc.1) q hq (by simpa using hqc.1)
  rw [hfalse] at hqc
  simp at hqc

lemma dbUpdatePackageTolerant_pods (db : DB) (i : Nat) (f : Package → Package) :
    (dbUpdatePackageTolerant db i f).pods = db.pods := by
  unfold dbUpdatePackageTolerant
  split
  · next db' h => exact (dbUpdatePackage_some h).1
  · rfl

lemma dbUpdatePackageTolerant_staff (db : DB) (i : Nat) (f : Package → Package) :
    (dbUpdatePackageTolerant db i f).staff = db.staff := by
  unfold dbUpdatePackageTolerant
  split
  · next db' h => exact (dbUpdatePackage_some h).2.1
  · rfl

lemma dbUpdatePackageTolerant_of_ok {db : DB} {i : Nat} {f : Package → Package}
    (h : ∀ p ∈ db.packages, p.id = i →
         ∀ q ∈ db.pods, q.packageId = p.id → q.isLocked = false) :
    dbUpdatePackageTolerant db i f =
      { db with packages := db.packages.map (fun p => if p.id == i then f p else p) } := by
  unfold dbUpdatePackageTolerant
  rw [dbUpdatePackage_ok h]

lemma findStaffByUser_congr {db db' : DB} (h : db'.staff = db.staff)
    (u : Nat) : findStaffByUser db' u = findStaffByUser db u := by
  unfold findStaffByUser
  rw [h]

/-! ### Frame lemmas: which tables each handler touches -/

lemma logAudit_pods (db : DB) (u : Nat) (r : LogAuditRequest) :
    (logAudit db u r).1.pods = db.pods := by
  unfold logAudit
  split <;> rfl

lemma driverPickup_pods (db : DB) (u pid : Nat) (now : String) (es : Bool) :
    (driverPickup db u pid now es).1.pods = db.pods := by
  unfold driverPickup
  repeat' split
  all_goals try rfl
  all_goals dsimp only
  all_goals split
  all_goals simp only [appendAuditEntry_pods]
  all_goals first
    | rfl
    | exact (dbUpdatePackage_some (by assumption)).1

lemma updatePackage_pods (db : DB) (u : Nat) (req : UpdatePackageRequest)
    (now : String) : (updatePackage db u req now).1.pods = db.pods := by
  unfold updatePackage
  repeat' split
  all_goals try rfl
  all_goals dsimp only
  all_goals split
  all_goals simp only [appendAuditEntry_pods]
  all_goals first
    | rfl
    | exact (dbUpdatePackage_some (by assumption)).1

lemma completePodCheck_pods (db : DB) (u : Nat) (req : CompletePodRequest) :
    (completePodCheck db u req).1.pods = db.pods := by
  unfold completePodCheck
  (repeat' split) <;> rfl

lemma lockPodStart_pods (db : DB) (cfg : LockCfg) :
    (lockPodStart db cfg).1.pods = db.pods := by
  unfold lockPodStart
  (repeat' split) <;> rfl

lemma dbInsertPod_some {db : DB} {y : Nat} {mk : Nat → String → Pod}
    {db' : DB} {pod : Pod} (h : dbInsertPod db y mk = some (db', pod)) :
    db'.pods = db.pods ++ [pod] ∧ db'.staff = db.staff ∧
    db'.packages = db.packages ∧ pod = mk db.nextPodId (generate_pod_reference y db).1 := by
  unfold dbInsertPod generate_pod_reference at h
  simp only at h
  split at h
  · exact absurd h (by simp)
  · rw [Option.some.injEq, Prod.mk.injEq] at h
    obtain ⟨h1, h2⟩ := h
    subst h2
    subst h1
    exact ⟨rfl, rfl, rfl, rfl⟩

lemma completePodFinish_mem_pods {db : DB} {u : Nat} {req : CompletePodRequest}
    {prof : StaffProfile} {pkg : Package} {now : String} {y : Nat} {p : Pod}
    (hm : p ∈ db.pods) :
    p ∈ (completePodFinish db u req prof pkg now y).1.pods := by
  unfold completePodFinish
  split
  · simpa using hm
  · next db1 pod h =>
      simp only [appendAuditEntry_pods, dbUpdatePackageTolerant_pods]
      rw [(dbInsertPod_some h).1]
      exact List.mem_append_left _ hm

lemma completePod_mem_pods {db : DB} {u : Nat} {req : CompletePodRequest}
    {now : String} {y : Nat} {p : Pod} (hm : p ∈ db.pods) :
    p ∈ (completePod db u req now y).1.pods := by
  unfold completePod
  split
  · next db1 e h =>
      have hp : db1.pods = db.pods := by
        have := completePodCheck_pods db u req
        rw [h] at this
        exact this
      simpa [hp] using hm
  · next db1 prof pkg h =>
      have hp : db1.pods = db.pods := by
        have := completePodCheck_pods db u req
        rw [h] at this
        exact this
      exact completePodFinish_mem_pods (by rw [hp]; exact hm)

lemma lockPodTas_mem_locked {db : DB} {cfg : LockCfg} {p : Pod}
    (hm : p ∈ db.pods) (hl : p.isLocked = true) :
    p ∈ (lockPodTas db cfg).1.pods := by
  unfold lockPodTas
  split
  · simpa using hm
  · simp only [appendAuditEntry_pods]
    refine List.mem_map.mpr ⟨p, hm, ?_⟩
    simp [hl]

lemma lockPod_mem_locked {db : DB} {cfg : LockCfg} {p : Pod}
    (hm : p ∈ db.pods) (hl : p.isLocked = true) :
    p ∈ (lockPod db cfg).1.pods := by
  unfold lockPod
  split
  · next db1 r h =>
      have hp : db1.pods = db.pods := by
        have := lockPodStart_pods db cfg
        rw [h] at this
        exact this
      simpa [hp] using hm
  · next db1 h =>
      have hp : db1.pods = db.pods := by
        have := lockPodStart_pods db cfg
        rw [h] at this
        exact this
      exact lockPodTas_mem_locked (p := p) (by rw [hp]; exact hm) hl

/-! ### Success-path lemmas for the sequential handlers -/

lemma completePodCheck_ok {db : DB} {u : Nat} {req : CompletePodRequest}
    {prof : StaffProfile} {pkg : Package}
    (h1 : findStaffByUser db u = some prof) (h2 : prof.isActive = true)
    (h3 : prof.role = Role.collection ∨ prof.role = Role.warehouse ∨
          prof.role = Role.admin)
    (h4 : req.signature_url ≠ "") (h5 : req.signature_path ≠ "")
    (h6 : req.signed_at ≠ "")
    (h7 : findPackage db req.package_id = some pkg)
    (h8 : findPodByPackage db req.package_id = none)
    (h9 : pkg.status ≠ PackageStatus.collected) :
    completePodCheck db u req = (db, .ok (prof, pkg)) := by
  unfold completePodCheck
  rw [h1, h7, h8]
  rcases h3 with h3 | h3 | h3 <;> simp [h2, h3, h4, h5, h6, h9]

lemma completePodCheck_collected {db : DB} {u : Nat} {req : CompletePodRequest}
    {prof : StaffProfile} {pkg : Package}
    (h1 : findStaffByUser db u = some prof) (h2 : prof.isActive = true)
    (h3 : prof.role = Role.collection ∨ prof.role = Role.warehouse ∨
          prof.role = Role.admin)
    (h4 : req.signature_url ≠ "") (h5 : req.signature_path ≠ "")
    (h6 : req.signed_at ≠ "")
    (h7 : findPackage db req.package_id = some pkg)
    (h8 : findPodByPackage db req.package_id = none)
    (h9 : pkg.status = PackageStatus.collected) :
    completePodCheck db u req = (db, .error .alreadyCollected) := by
  unfold completePodCheck
  rw [h1, h7, h8]
  rcases h3 with h3 | h3 | h3 <;> simp [h2, h3, h4, h5, h6, h9]

lemma completePodFinish_ok {db : DB} (u : Nat) (req : CompletePodRequest)
    (prof : StaffProfile) {pkg : Package} (now : String) (y : Nat)
    (hnp : ∀ q ∈ db.pods, q.packageId ≠ pkg.id)
    (hid : pkg.id = req.package_id) :
    ∃ pod, (completePodFinish db u req prof pkg now y).2 = .ok pod ∧
      pod.packageId = pkg.id ∧ pod.isLocked = false ∧
      (completePodFinish db u req prof pkg now y).1.pods = db.pods ++ [pod] ∧
      ∀ q ∈ (completePodFinish db u req prof pkg now y).1.packages,
        q.id = req.package_id → q.status = PackageStatus.collected := by
  unfold completePodFinish
  cases hins : dbInsertPod db y (fun podId ref =>
    { id := podId, podReference := ref, packageId := pkg.id,
      packageReference := pkg.reference, receiverEmail := pkg.receiverEmail,
      staffId := prof.id, staffName := prof.fullName, staffEmail := prof.email,
      signatureUrl := req.signature_url, signaturePath := req.signature_path,
      signedAt := req.signed_at, completedAt := now,
      pdfUrl := none, pdfPath := none, pdfGeneratedAt := none,
      isLocked := false, lockedAt := none,
      notes := match req.notes with
        | some s => if s.trim != "" then some s.trim else pkg.notes
        | none => pkg.notes }) with
  | none =>
      exfalso
      unfold dbInsertPod generate_pod_reference at hins
      simp only at hins
      split at hins
      · next hc =>
          obtain ⟨q, hq, hqe⟩ := List.any_eq_true.mp hc
          exact hnp q hq (by simpa using hqe)
      · exact absurd hins (by simp)
  | some x =>
      obtain ⟨db1, pod⟩ := x
      obtain ⟨hpods, _, hpkgs, hpod⟩ := dbInsertPod_some hins
      have hcond : ∀ p ∈ (appendAuditEntry db1
            { action := "POD_CREATED", entityType := "pod",
              entityId := pod.id, performedBy := u }).packages,
          p.id = req.package_id →
          ∀ q ∈ (appendAuditEntry db1
            { action := "POD_CREATED", entityType := "pod",
              entityId := pod.id, performedBy := u }).pods,
          q.packageId = p.id → q.isLocked = false := by
        intro p hp hpid q hq hqpid
        simp only [appendAuditEntry_pods] at hq
        rw [hpods] at hq
        rcases List.mem_append.mp hq with hq | hq
        · exact absurd (hqpid.trans (hpid.trans hid.symm)) (hnp q hq)
        · have hqpod : q = pod := by simpa using hq
          subst hqpod
          rw [hpod]
      refine ⟨pod, by simp, by rw [hpod], by rw [hpod], ?_, ?_⟩
      · simp only [appendAuditEntry_pods, dbUpdatePackageTolerant_pods]
        exact hpods
      · intro q hq hqid
        simp only [appendAuditEntry_packages,
          dbUpdatePackageTolerant_of_ok hcond] at hq
        obtain ⟨r, hr, hrq⟩ := List.mem_map.mp hq
        by_cases hri : (r.id == req.package_id) = true
        · rw [if_pos hri] at hrq
          rw [← hrq]
        · rw [if_neg hri] at hrq
          subst hrq
          exact absurd (by simp [hqid]) hri

lemma lockPodStart_ok {db : DB} {cfg : LockCfg} {prof : StaffProfile} {pod : Pod}
    (h1 : findStaffByUser db cfg.userId = some prof) (h2 : prof.isActive = true)
    (h3 : findPod db cfg.pod_id = some pod) (h4 : pod.isLocked = false)
    (h5 : pod.staffId = prof.id ∨ prof.role = Role.admin) :
    lockPodStart db cfg = (db, none) := by
  unfold lockPodStart
  rw [h1, h3]
  rcases h5 with h5 | h5 <;> simp [h2, h4, h5]

lemma lockPod_ok {db : DB} {cfg : LockCfg} {prof : StaffProfile} {pod : Pod}
    (h1 : findStaffByUser db cfg.userId = some prof) (h2 : prof.isActive = true)
    (h3 : findPod db cfg.pod_id = some pod) (h4 : pod.isLocked = false)
    (h5 : pod.staffId = prof.id ∨ prof.role = Role.admin) :
    (lockPod db cfg).2 = .ok (lockUpdateData cfg pod) := by
  have htas : db.pods.find? (fun q => q.id == cfg.pod_id && !q.isLocked) = some pod := by
    have := find?_strengthen (q := fun x => !x.isLocked) h3 (by simp [h4])
    exact this
  unfold lockPod
  rw [lockPodStart_ok h1 h2 h3 h4 h5]
  show (lockPodTas db cfg).2 = _
  unfold lockPodTas
  rw [htas]

/-! ## Claim theorems -/

/-- C2: once a Pod's `is_locked` is true, no operation changes any of its
    fields and none deletes it, for every caller and role.  First two
    conjuncts: at the database layer, any `UPDATE` whose filter touches a
    locked pod row is aborted by the `prevent_pod_modification` trigger and
    any `DELETE` touching a pod row is aborted by `prevent_pod_deletion`;
    neither trigger consults a role, so there is no admin bypass.  Third
    conjunct: every request handler in the repository leaves a locked pod
    row present and bit-for-bit unchanged, for arbitrary callers. -/
theorem C2_locked_pod_immutable :
    (∀ (db : DB) (cond : Pod → Bool) (f : Pod → Pod) (p : Pod),
        p ∈ db.pods → p.isLocked = true → cond p = true →
        dbUpdatePodsWhere db cond f =
          Except.error "POD record is locked and cannot be modified") ∧
    (∀ (db : DB) (cond : Pod → Bool) (p : Pod),
        p ∈ db.pods → cond p = true →
        dbDeletePodsWhere db cond =
          Except.error "POD records cannot be deleted") ∧
    (∀ (db : DB) (p : Pod), p ∈ db.pods → p.isLocked = true →
      (∀ u req now year, p ∈ (completePod db u req now year).1.pods) ∧
      (∀ cfg, p ∈ (lockPod db cfg).1.pods) ∧
      (∀ u req now, p ∈ (updatePackage db u req now).1.pods) ∧
      (∀ u pid now es, p ∈ (driverPickup db u pid now es).1.pods) ∧
      (∀ u req, p ∈ (logAudit db u req).1.pods)) := by
  refine ⟨?_, ?_, ?_⟩
  · intro db cond f p hm hl hc
    unfold dbUpdatePodsWhere
    rw [if_pos (List.any_eq_true.mpr ⟨p, hm, by simp [hc, hl]⟩)]
  · intro db cond p hm hc
    unfold dbDeletePodsWhere
    rw [if_pos (List.any_eq_true.mpr ⟨p, hm, hc⟩)]
  · intro db p hm hl
    exact ⟨fun _ _ _ _ => completePod_mem_pods hm,
           fun _ => lockPod_mem_locked hm hl,
           fun u req now => by rw [updatePackage_pods]; exact hm,
           fun u pid now es => by rw [driverPickup_pods]; exact hm,
           fun u req => by rw [logAudit_pods]; exact hm⟩

/-- Witness for C2 at a concrete state: a locked pod survives a blanket
    update, a blanket delete, and a lock attempt. -/
theorem C2_locked_pod_immutable_witness :
    dbUpdatePodsWhere fxDbLockedPending (fun _ => true)
        (fun p => { p with notes := some "edit" }) =
      Except.error "POD record is locked and cannot be modified" ∧
    dbDeletePodsWhere fxDbLockedPending (fun _ => true) =
      Except.error "POD records cannot be deleted" ∧
    fxPodLocked ∈ (lockPod fxDbLockedPending fxLockCfgPdf).1.pods := by
  have hm : fxPodLocked ∈ fxDbLockedPending.pods := by
    simp [fxDbLockedPending, fxDbPending]
  refine ⟨C2_locked_pod_immutable.1 _ _ _ fxPodLocked hm rfl rfl,
          C2_locked_pod_immutable.2.1 _ _ fxPodLocked hm rfl,
          ((C2_locked_pod_immutable.2.2 _ fxPodLocked hm rfl).2.1) fxLockCfgPdf⟩

/-- C9: with the caller and input checks satisfied and no pod yet for the
    package, `complete-pod`'s terminal-state guard rejects with
    `AlreadyCollected` exactly when the package status is `collected`; in
    particular a package in the terminal `returned` state is accepted — a
    pod is created for it and every package row with its id is overwritten
    to `collected`. -/
theorem C9_completePod_collected_guard_only :
    ∀ (db : DB) (u : Nat) (req : CompletePodRequest) (now : String) (y : Nat)
      (prof : StaffProfile) (pkg : Package),
      findStaffByUser db u = some prof →
      prof.isActive = true →
      (prof.role = Role.collection ∨ prof.role = Role.warehouse ∨
        prof.role = Role.admin) →
      req.signature_url ≠ "" → req.signature_path ≠ "" → req.signed_at ≠ "" →
      findPackage db req.package_id = some pkg →
      findPodByPackage db req.package_id = none →
      (((completePod db u req now y).2 = .error .alreadyCollected) ↔
        pkg.status = PackageStatus.collected) ∧
      (pkg.status = PackageStatus.returned →
        ∃ pod, (completePod db u req now y).2 = .ok pod ∧
          pod.packageId = pkg.id ∧ pod.isLocked = false ∧
          (completePod db u req now y).1.pods = db.pods ++ [pod] ∧
          ∀ q ∈ (completePod db u req now y).1.packages,
            q.id = req.package_id → q.status = PackageStatus.collected) := by
  intro db u req now y prof pkg h1 h2 h3 h4 h5 h6 h7 h8
  have hii : pkg.id = req.package_id := by
    have := List.find?_some h7
    simpa using this
  have hnp : ∀ q ∈ db.pods, q.packageId ≠ pkg.id := by
    intro q hq
    have := List.find?_eq_none.mp h8 q hq
    simp only [hii]
    simpa using this
  constructor
  · constructor
    · intro hres
      by_contra hne
      have hchk := completePodCheck_ok h1 h2 h3 h4 h5 h6 h7 h8 hne
      unfold completePod at hres
      rw [hchk] at hres
      obtain ⟨pod, hpod, -⟩ := completePodFinish_ok u req prof now y hnp hii
      rw [hpod] at hres
      exact absurd hres (by simp)
    · intro hc
      have hchk := completePodCheck_collected h1 h2 h3 h4 h5 h6 h7 h8 hc
      unfold completePod
      rw [hchk]
  · intro hret
    have hne : pkg.status ≠ PackageStatus.collected := by rw [hret]; simp
    have hchk := completePodCheck_ok h1 h2 h3 h4 h5 h6 h7 h8 hne
    obtain ⟨pod, hpod, hpk, hlk, hpods, hpkgs⟩ :=
      completePodFinish_ok u req prof now y hnp hii
    refine ⟨pod, ?_, hpk, hlk, ?_, ?_⟩ <;>
      · unfold completePod
        rw [hchk]
        assumption

/-- Witness for C9: the returned-status fixture package gains a pod and is
    overwritten to collected. -/
theorem C9_completePod_collected_guard_only_witness :
    ¬ ((completePod fxDbReturned 12 fxCpReq "t1" 2025).2 =
        .error .alreadyCollected) ∧
    ∃ pod, (completePod fxDbReturned 12 fxCpReq "t1" 2025).2 = .ok pod ∧
      pod.packageId = (fxPkg .returned).id ∧ pod.isLocked = false ∧
      (completePod fxDbReturned 12 fxCpReq "t1" 2025).1.pods =
        fxDbReturned.pods ++ [pod] ∧
      ∀ q ∈ (completePod fxDbReturned 12 fxCpReq "t1" 2025).1.packages,
        q.id = fxCpReq.package_id → q.status = PackageStatus.collected := by
  have h := C9_completePod_collected_guard_only fxDbReturned 12 fxCpReq "t1" 2025
    stColl (fxPkg .returned) rfl rfl (Or.inl rfl)
    (by decide) (by decide) (by decide) rfl rfl
  exact ⟨fun hc => by have := h.1.mp hc; simp [fxPkg] at this, h.2 rfl⟩

/-- C10: a successful `lock-pod` writes `pdf_url`, `pdf_path` and
    `pdf_generated_at` in the same single conditional update that sets
    `is_locked = true` (the returned row is the one produced by that one
    update), and only when the request supplies a (truthy) `pdf_url`; with
    no `pdf_url`, every field of the pod other than `is_locked` and
    `locked_at` is unchanged. -/
theorem C10_lock_pdf_fields_frame :
    ∀ (db : DB) (cfg : LockCfg) (prof : StaffProfile) (pod : Pod),
      findStaffByUser db cfg.userId = some prof →
      prof.isActive = true →
      findPod db cfg.pod_id = some pod →
      pod.isLocked = false →
      (pod.staffId = prof.id ∨ prof.role = Role.admin) →
      ∃ q, (lockPod db cfg).2 = .ok q ∧
        q.isLocked = true ∧ q.lockedAt = some cfg.now ∧
        (strTruthy cfg.pdf_url = true →
          q.pdfUrl = cfg.pdf_url ∧
          q.pdfPath = (if strTruthy cfg.pdf_path then cfg.pdf_path else none) ∧
          q.pdfGeneratedAt = some cfg.now) ∧
        (strTruthy cfg.pdf_url = false →
          q.pdfUrl = pod.pdfUrl ∧ q.pdfPath = pod.pdfPath ∧
          q.pdfGeneratedAt = pod.pdfGeneratedAt) ∧
        q.id = pod.id ∧ q.podReference = pod.podReference ∧
        q.packageId = pod.packageId ∧
        q.packageReference = pod.packageReference ∧
        q.receiverEmail = pod.receiverEmail ∧ q.staffId = pod.staffId ∧
        q.staffName = pod.staffName ∧ q.staffEmail = pod.staffEmail ∧
        q.signatureUrl = pod.signatureUrl ∧
        q.signaturePath = pod.signaturePath ∧
        q.signedAt = pod.signedAt ∧ q.completedAt = pod.completedAt ∧
        q.notes = pod.notes := by
  intro db cfg prof pod h1 h2 h3 h4 h5
  refine ⟨lockUpdateData cfg pod, lockPod_ok h1 h2 h3 h4 h5, ?_⟩
  unfold lockUpdateData
  by_cases ht : strTruthy cfg.pdf_url = true
  · rw [if_pos ht]
    refine ⟨rfl, rfl, fun _ => ⟨rfl, rfl, rfl⟩, fun hf => absurd ht (by simp [hf]),
            rfl, rfl, rfl, rfl, rfl, rfl, rfl, rfl, rfl, rfl, rfl, rfl, rfl⟩
  · rw [if_neg ht]
    refine ⟨rfl, rfl, fun htr => absurd htr ht, fun _ => ⟨rfl, rfl, rfl⟩,
            rfl, rfl, rfl, rfl, rfl, rfl, rfl, rfl, rfl, rfl, rfl, rfl, rfl⟩

/-- Witness for C10 at the fixtures, with and without a supplied
    `pdf_url`. -/
theorem C10_lock_pdf_fields_frame_witness :
    (∃ q, (lockPod fxDbUnlockedPending fxLockCfgPdf).2 = .ok q ∧
      q.isLocked = true ∧ q.pdfUrl = some "pdf-url" ∧
      q.pdfPath = some "pdf-path" ∧ q.pdfGeneratedAt = some "t3") ∧
    (∃ q, (lockPod fxDbUnlockedPending fxLockCfgNoPdf).2 = .ok q ∧
      q.isLocked = true ∧ q.lockedAt = some "t4" ∧
      q.pdfUrl = fxPodUnlocked.pdfUrl ∧ q.pdfPath = fxPodUnlocked.pdfPath ∧
      q.pdfGeneratedAt = fxPodUnlocked.pdfGeneratedAt ∧
      q.notes = fxPodUnlocked.notes) := by
  obtain ⟨q1, hq1, hl1, -, hpdf1, -⟩ := C10_lock_pdf_fields_frame
    fxDbUnlockedPending fxLockCfgPdf stColl fxPodUnlocked rfl rfl rfl rfl
    (Or.inl rfl)
  obtain ⟨q2, hq2, hl2, hat2, -, hnone2, hrest2⟩ := C10_lock_pdf_fields_frame
    fxDbUnlockedPending fxLockCfgNoPdf stAdmin fxPodUnlocked rfl rfl rfl rfl
    (Or.inr rfl)
  obtain ⟨hu1, hp1, hg1⟩ := hpdf1 rfl
  obtain ⟨hu2, hp2, hg2⟩ := hnone2 rfl
  exact ⟨⟨q1, hq1, hl1, hu1, hp1, hg1⟩,
         ⟨q2, hq2, hl2, hat2, hu2, hp2, hg2, hrest2.2.2.2.2.2.2.2.2.2.2.2.2⟩⟩

/-- Counterexample to C4: on a package whose pod is locked, the rejection
    is not a `Locked` error regardless of role.  `update-package` rejects
    an active driver with the role error (the role check runs before the
    lock check); `driver-pickup` has no handler lock check at all — its
    `UPDATE` is aborted by the `prevent_package_modification_when_locked`
    trigger and the caller receives the generic 500 ("Failed to update
    package", an internal error, not `Locked`), with the database
    unchanged. -/
theorem C4_cex_locked_rejections_not_locked_kind :
    (updatePackage fxDbLockedPending 13
        { package_id := 100, status := some .collected, notes := none,
          receiver_email := none } "t5").2 =
      .error .roleForbidden ∧
    updatePackageKind .roleForbidden ≠ ErrKind.locked ∧
    (driverPickup fxDbLockedPending 13 100 "t5" false).2 =
      .error .updateFailed ∧
    driverPickupKind .updateFailed = ErrKind.internalError ∧
    driverPickupKind .updateFailed ≠ ErrKind.locked ∧
    (driverPickup fxDbLockedPending 13 100 "t5" false).1 = fxDbLockedPending ∧
    (fxPkg .pending).status = PackageStatus.pending ∧
    fxPodLocked ∈ fxDbLockedPending.pods ∧ fxPodLocked.isLocked = true ∧
    fxPodLocked.packageId = 100 := by
  refine ⟨rfl, by decide, rfl, rfl, by decide, rfl, rfl, ?_, rfl, rfl⟩
  simp [fxDbLockedPending, fxDbPending]

/-- C4 amended: a locked-pod package is never modified, but only
    `update-package` reports `Locked`, and only after the caller passes the
    profile, `is_active` and role checks that precede the lock check; for
    such callers the rejection is `Locked` regardless of the requested
    target state, with the package left unchanged.  `driver-pickup` has no
    handler-level lock check: for an active driver/admin and a package in a
    pickup source state, the `prevent_package_modification_when_locked`
    trigger aborts its `UPDATE`, and the caller receives the generic
    internal error (500 "Failed to update package"), not `Locked`, with
    the database unchanged. -/
theorem C4_locked_check_after_role_check :
    (∀ (db : DB) (u : Nat) (req : UpdatePackageRequest) (now : String)
       (prof : StaffProfile) (pkg : Package) (q : Pod),
      findStaffByUser db u = some prof →
      prof.isActive = true →
      (prof.role = Role.warehouse ∨ prof.role = Role.admin ∨
        prof.role = Role.collection) →
      findPackage db req.package_id = some pkg →
      q ∈ db.pods → q.packageId = pkg.id → q.isLocked = true →
      (updatePackage db u req now).2 = .error .packageLocked ∧
      updatePackageKind .packageLocked = ErrKind.locked ∧
      (updatePackage db u req now).1.packages = db.packages) ∧
    (∀ (db : DB) (u pid : Nat) (now : String) (es : Bool)
       (prof : StaffProfile) (pkg : Package) (q : Pod),
      findStaffByUser db u = some prof →
      prof.isActive = true →
      (prof.role = Role.driver ∨ prof.role = Role.admin) →
      findPackage db pid = some pkg →
      (pkg.status = PackageStatus.pending ∨ pkg.status = PackageStatus.notified) →
      q ∈ db.pods → q.packageId = pkg.id → q.isLocked = true →
      (driverPickup db u pid now es).2 = .error .updateFailed ∧
      driverPickupKind .updateFailed = ErrKind.internalError ∧
      driverPickupKind .updateFailed ≠ ErrKind.locked ∧
      (driverPickup db u pid now es).1 = db) := by
  constructor
  · intro db u req now prof pkg q h1 h2 h3 h4 hq hpk hl
    obtain ⟨r, hr⟩ : ∃ r,
        db.pods.find? (fun r => r.packageId == pkg.id && r.isLocked) = some r :=
      Option.isSome_iff_exists.mp
        (List.find?_isSome.mpr ⟨q, hq, by simp [hpk, hl]⟩)
    refine ⟨?_, rfl, ?_⟩
    · unfold updatePackage
      rcases h3 with h3 | h3 | h3 <;> simp [h1, h4, h2, h3, hr]
    · unfold updatePackage
      rcases h3 with h3 | h3 | h3 <;>
        simp [h1, h4, h2, h3, hr, appendAuditEntry]
  · intro db u pid now es prof pkg q h1 h2 h3 h4 h5 hq hpk hl
    have hnone : dbUpdatePackage db pid (fun p =>
        { p with status := PackageStatus.in_transit, pickedUpBy := some u,
                 pickedUpAt := some now, updatedAt := now }) = none := by
      unfold dbUpdatePackage
      rw [if_pos]
      refine List.any_eq_true.mpr ⟨pkg, List.mem_of_find?_eq_some h4, ?_⟩
      rw [Bool.and_eq_true]
      refine ⟨by simpa using List.find?_some h4, ?_⟩
      exact List.any_eq_true.mpr ⟨q, hq, by simp [hpk, hl]⟩
    refine ⟨?_, rfl, by decide, ?_⟩ <;>
      · unfold driverPickup
        rcases h3 with h3 | h3 <;> rcases h5 with h5 | h5 <;>
          simp [h1, h4, h2, h3, h5, hnone]

/-- Witness for C4 amended: an admin is rejected with `Locked` on the
    locked fixture, and a driver's pickup of the same locked-pod package
    fails with the trigger's internal error, leaving the database
    unchanged. -/
theorem C4_locked_check_after_role_check_witness :
    (updatePackage fxDbLockedPending 11
        { package_id := 100, status := some .collected, notes := none,
          receiver_email := none } "t5").2 =
      .error .packageLocked ∧
    (driverPickup fxDbLockedPending 13 100 "t5" false).2 =
      .error .updateFailed ∧
    (driverPickup fxDbLockedPending 13 100 "t5" false).1 =
      fxDbLockedPending := by
  have hm : fxPodLocked ∈ fxDbLockedPending.pods := by
    simp [fxDbLockedPending, fxDbPending]
  have h2 := C4_locked_check_after_role_check.2 fxDbLockedPending 13 100 "t5"
    false stDriver (fxPkg .pending) fxPodLocked rfl rfl (Or.inl rfl) rfl
    (Or.inl rfl) hm rfl rfl
  exact ⟨(C4_locked_check_after_role_check.1 fxDbLockedPending 11
            { package_id := 100, status := some .collected, notes := none,
              receiver_email := none } "t5"
            stAdmin (fxPkg .pending) fxPodLocked rfl rfl (Or.inr (Or.inl rfl))
            rfl hm rfl rfl).1,
         h2.1, h2.2.2.2⟩

/-- Counterexample to C5: `update-package` performs no source-state
    validation — it moves the fixture package from the terminal `collected`
    status back to `pending`, a transition that is on no edge of the state
    graph, and reports success rather than `InvalidTransition`. -/
theorem C5_cex_collected_to_pending_accepted :
    (fxPkg PackageStatus.collected) ∈ fxDbCollected.packages ∧
    (∃ pkg', (updatePackage fxDbCollected 11
        { package_id := 100, status := some .pending, notes := none,
          receiver_email := none } "t6").2 = .ok pkg' ∧
      pkg'.status = PackageStatus.pending) ∧
    (∀ q ∈ (updatePackage fxDbCollected 11
        { package_id := 100, status := some .pending, notes := none,
          receiver_email := none } "t6").1.packages,
      q.status = PackageStatus.pending) := by
  refine ⟨by simp [fxDbCollected, fxDbPending], ⟨_, rfl, rfl⟩, ?_⟩
  intro q hq
  fin_cases hq
  rfl

/-- C5 amended: the source-state guard exists only in `driver-pickup`
    (which rejects any status outside `pending`/`notified` with the
    invalid-transition error, so re-applying pickup fails), while
    `update-package` applies any requested target status without
    consulting the current one. -/
theorem C5_transition_guard_only_in_driver_pickup :
    (∀ (db : DB) (u pid : Nat) (now : String) (es : Bool)
       (prof : StaffProfile) (pkg : Package),
      findStaffByUser db u = some prof →
      prof.isActive = true →
      (prof.role = Role.driver ∨ prof.role = Role.admin) →
      findPackage db pid = some pkg →
      (((driverPickup db u pid now es).2 = .error .invalidStatus) ↔
        ¬(pkg.status = PackageStatus.pending ∨
          pkg.status = PackageStatus.notified)) ∧
      driverPickupKind .invalidStatus = ErrKind.invalidTransition) ∧
    (∀ (db : DB) (u : Nat) (req : UpdatePackageRequest) (now : String)
       (prof : StaffProfile) (pkg : Package) (st : PackageStatus),
      findStaffByUser db u = some prof →
      prof.isActive = true →
      (prof.role = Role.warehouse ∨ prof.role = Role.admin ∨
        prof.role = Role.collection) →
      findPackage db req.package_id = some pkg →
      (∀ r ∈ db.pods, r.packageId = pkg.id → r.isLocked = false) →
      req.receiver_email = none →
      req.status = some st →
      ∃ pkg', (updatePackage db u req now).2 = .ok pkg' ∧
        pkg'.status = st) := by
  constructor
  · intro db u pid now es prof pkg h1 h2 h3 h4
    refine ⟨?_, rfl⟩
    unfold driverPickup
    rw [h1, h4]
    by_cases hs : pkg.status = PackageStatus.pending ∨
        pkg.status = PackageStatus.notified
    · -- in a pickup source state the result is a successful pickup or the
      -- trigger's internal error, never the invalid-status rejection
      refine iff_of_false ?_ (by simp [hs])
      cases hdb : dbUpdatePackage db pid (fun p =>
          { p with status := PackageStatus.in_transit, pickedUpBy := some u,
                   pickedUpAt := some now, updatedAt := now }) with
      | none =>
          rcases h3 with h3 | h3 <;> rcases hs with hs | hs <;>
            simp [h2, h3, hs, hdb]
      | some db1 =>
          rcases h3 with h3 | h3 <;> rcases hs with hs | hs <;>
            simp [h2, h3, hs, hdb]
    · have hsp : (pkg.status == PackageStatus.pending) = false := by
        simp
        intro he
        exact hs (Or.inl he)
      have hsn : (pkg.status == PackageStatus.notified) = false := by
        simp
        intro he
        exact hs (Or.inr he)
      rcases h3 with h3 | h3 <;> simp [h2, h3, hsp, hsn, hs]
  · intro db u req now prof pkg st h1 h2 h3 h4 hnl he hst
    have hfind : db.pods.find? (fun r => r.packageId == pkg.id && r.isLocked) = none := by
      refine List.find?_eq_none.mpr (fun r hr hpred => ?_)
      obtain ⟨hp1, hp2⟩ := Bool.and_eq_true _ _ |>.mp hpred
      have := hnl r hr (by simpa using hp1)
      rw [this] at hp2
      simp at hp2
    have hok : dbUpdatePackage db req.package_id
        (applyUpdatePackageData req u now) =
        some { db with packages := db.packages.map (fun p =>
          if p.id == req.package_id then applyUpdatePackageData req u now p
          else p) } := by
      apply dbUpdatePackage_ok
      intro p hp hpid q' hq' hqp
      have hpk : pkg.id = req.package_id := by simpa using List.find?_some h4
      exact hnl q' hq' (by rw [hqp, hpid, ← hpk])
    refine ⟨applyUpdatePackageData req u now pkg, ?_, ?_⟩
    · unfold updatePackage
      rcases h3 with h3 | h3 | h3 <;> simp [h1, h4, hfind, h2, h3, he, hok]
    · unfold applyUpdatePackageData
      rw [hst, he]
      cases req.notes <;> by_cases hc : st = PackageStatus.collected <;>
        simp [hc]

/-- Witness for C5 amended: a second pickup of an in-transit package is
    rejected as an invalid transition, and `update-package` moves the
    collected fixture back to pending. -/
theorem C5_transition_guard_only_in_driver_pickup_witness :
    ((driverPickup { fxDbPending with
        packages := [fxPkg PackageStatus.in_transit] } 13 100 "t7" false).2 =
      .error .invalidStatus) ∧
    (∃ pkg', (updatePackage fxDbCollected 11
        { package_id := 100, status := some .pending, notes := none,
          receiver_email := none } "t6").2 = .ok pkg' ∧
      pkg'.status = PackageStatus.pending) := by
  have h1 := (C5_transition_guard_only_in_driver_pickup.1
    { fxDbPending with packages := [fxPkg PackageStatus.in_transit] }
    13 100 "t7" false stDriver (fxPkg PackageStatus.in_transit)
    rfl rfl (Or.inl rfl) rfl).1
  have h2 := C5_transition_guard_only_in_driver_pickup.2 fxDbCollected 11
    { package_id := 100, status := some .pending, notes := none,
      receiver_email := none } "t6" stAdmin (fxPkg PackageStatus.collected)
    PackageStatus.pending rfl rfl (Or.inr (Or.inl rfl)) rfl
    (by intro r hr; simp [fxDbCollected, fxDbPending] at hr) rfl rfl
  exact ⟨h1.mpr (by simp [fxPkg]), h2⟩

/-- Counterexample to C6: `log-audit` never checks `is_active`; the
    deactivated fixture staff member successfully appends a new audit
    entry. -/
theorem C6_cex_deactivated_staff_appends_audit :
    findStaffByUser fxDbPending 14 = some stInactive ∧
    stInactive.isActive = false ∧
    (logAudit fxDbPending 14
        { action := "PACKAGE_CREATED", entity_type := "package",
          entity_id := 100 }).2 =
      .ok { action := "PACKAGE_CREATED", entityType := "package",
            entityId := 100, performedBy := 14 } ∧
    (logAudit fxDbPending 14
        { action := "PACKAGE_CREATED", entity_type := "package",
          entity_id := 100 }).1.audits =
      fxDbPending.audits ++
        [{ action := "PACKAGE_CREATED", entityType := "package",
           entityId := 100, performedBy := 14 }] := by
  exact ⟨rfl, rfl, rfl, rfl⟩

/-- C6 amended: `complete-pod`, `lock-pod`, `update-package` and
    `driver-pickup` all reject a deactivated caller before any state
    change (the whole database is returned unchanged), but `log-audit`
    performs no `is_active` check: any authenticated caller — including a
    deactivated staff member — appends an audit entry. -/
theorem C6_deactivated_rejected_except_log_audit :
    (∀ (db : DB) (u : Nat) (req : CompletePodRequest) (now : String) (y : Nat)
       (prof : StaffProfile),
      findStaffByUser db u = some prof → prof.isActive = false →
      completePod db u req now y = (db, .error .deactivated)) ∧
    (∀ (db : DB) (cfg : LockCfg) (prof : StaffProfile),
      findStaffByUser db cfg.userId = some prof → prof.isActive = false →
      lockPod db cfg = (db, .error .deactivated)) ∧
    (∀ (db : DB) (u : Nat) (req : UpdatePackageRequest) (now : String)
       (prof : StaffProfile),
      findStaffByUser db u = some prof → prof.isActive = false →
      updatePackage db u req now = (db, .error .deactivated)) ∧
    (∀ (db : DB) (u pid : Nat) (now : String) (es : Bool)
       (prof : StaffProfile),
      findStaffByUser db u = some prof → prof.isActive = false →
      driverPickup db u pid now es = (db, .error .deactivated)) ∧
    (∀ (db : DB) (u : Nat) (req : LogAuditRequest) (prof : StaffProfile),
      findStaffByUser db u = some prof → prof.isActive = false →
      req.action ≠ "" → req.entity_type ≠ "" →
      (logAudit db u req).2 =
        .ok { action := req.action, entityType := req.entity_type,
              entityId := req.entity_id, performedBy := u } ∧
      (logAudit db u req).1.audits =
        db.audits ++
          [{ action := req.action, entityType := req.entity_type,
             entityId := req.entity_id, performedBy := u }]) := by
  refine ⟨?_, ?_, ?_, ?_, ?_⟩
  · intro db u req now y prof h1 h2
    unfold completePod completePodCheck
    simp [h1, h2]
  · intro db cfg prof h1 h2
    unfold lockPod lockPodStart
    simp [h1, h2]
  · intro db u req now prof h1 h2
    unfold updatePackage
    simp [h1, h2]
  · intro db u pid now es prof h1 h2
    unfold driverPickup
    simp [h1, h2]
  · intro db u req prof h1 h2 h3 h4
    unfold logAudit
    simp [h3, h4, appendAuditEntry]

/-- Witness for C6 amended: the deactivated fixture staff member is turned
    away by `complete-pod` but still appends an audit entry through
    `log-audit`. -/
theorem C6_deactivated_rejected_except_log_audit_witness :
    completePod fxDbPending 14 fxCpReq "t1" 2025 =
      (fxDbPending, .error .deactivated) ∧
    (logAudit fxDbPending 14
        { action := "PACKAGE_CREATED", entity_type := "package",
          entity_id := 100 }).2 =
      .ok { action := "PACKAGE_CREATED", entityType := "package",
            entityId := 100, performedBy := 14 } := by
  refine ⟨C6_deactivated_rejected_except_log_audit.1 fxDbPending 14 fxCpReq
            "t1" 2025 stInactive rfl rfl, ?_⟩
  exact (C6_deactivated_rejected_except_log_audit.2.2.2.2 fxDbPending 14
    { action := "PACKAGE_CREATED", entity_type := "package", entity_id := 100 }
    stInactive rfl rfl (by decide) (by decide)).1

/-- Counterexample to C7: an `AlreadyLocked` rejection — a rejection with
    compliance significance — produces no audit entry: `lock-pod` on the
    locked fixture pod returns the already-locked error with the audit log
    untouched. -/
theorem C7_cex_already_locked_not_audited :
    (lockPod fxDbLockedPending fxLockCfgPdf).2 = .error .alreadyLockedPre ∧
    lockPodKind .alreadyLockedPre = ErrKind.alreadyLocked ∧
    (lockPod fxDbLockedPending fxLockCfgPdf).1.audits =
      fxDbLockedPending.audits := by
  exact ⟨rfl, rfl, rfl⟩

/-- C7 amended: the `Locked` rejection of `update-package`, the
    `DuplicatePod` rejection of `complete-pod`, and the creator-or-admin
    `Forbidden` rejection of `lock-pod` each append exactly one audit
    entry before the error is returned; but the `AlreadyLocked` rejection
    of `lock-pod` and the role-check `Forbidden` rejections of
    `complete-pod`, `update-package` and `driver-pickup` append none. -/
theorem C7_denials_audited_except_already_locked_and_role :
    (∀ (db : DB) (u : Nat) (req : UpdatePackageRequest) (now : String)
       (prof : StaffProfile) (pkg : Package) (q : Pod),
      findStaffByUser db u = some prof → prof.isActive = true →
      (prof.role = Role.warehouse ∨ prof.role = Role.admin ∨
        prof.role = Role.collection) →
      findPackage db req.package_id = some pkg →
      q ∈ db.pods → q.packageId = pkg.id → q.isLocked = true →
      (updatePackage db u req now).2 = .error .packageLocked ∧
      (updatePackage db u req now).1.audits =
        db.audits ++
          [{ action := "PACKAGE_UPDATE_DENIED", entityType := "package",
             entityId := req.package_id, performedBy := u }]) ∧
    (∀ (db : DB) (u : Nat) (req : CompletePodRequest)
       (prof : StaffProfile) (pkg : Package) (ex : Pod),
      findStaffByUser db u = some prof → prof.isActive = true →
      (prof.role = Role.collection ∨ prof.role = Role.warehouse ∨
        prof.role = Role.admin) →
      req.signature_url ≠ "" → req.signature_path ≠ "" → req.signed_at ≠ "" →
      findPackage db req.package_id = some pkg →
      findPodByPackage db req.package_id = some ex →
      ∀ now y,
      (completePod db u req now y).2 = .error .duplicatePod ∧
      (completePod db u req now y).1.audits =
        db.audits ++
          [{ action := "POD_DUPLICATE_ATTEMPT", entityType := "package",
             entityId := req.package_id, performedBy := u }]) ∧
    (∀ (db : DB) (cfg : LockCfg) (prof : StaffProfile) (pod : Pod),
      findStaffByUser db cfg.userId = some prof → prof.isActive = true →
      findPod db cfg.pod_id = some pod → pod.isLocked = false →
      pod.staffId ≠ prof.id → prof.role ≠ Role.admin →
      (lockPod db cfg).2 = .error .lockDenied ∧
      (lockPod db cfg).1.audits =
        db.audits ++
          [{ action := "POD_LOCK_DENIED", entityType := "pod",
             entityId := cfg.pod_id, performedBy := cfg.userId }]) ∧
    (∀ (db : DB) (cfg : LockCfg) (prof : StaffProfile) (pod : Pod),
      findStaffByUser db cfg.userId = some prof → prof.isActive = true →
      findPod db cfg.pod_id = some pod → pod.isLocked = true →
      lockPod db cfg = (db, .error .alreadyLockedPre)) ∧
    (∀ (db : DB) (u : Nat) (req : CompletePodRequest) (now : String) (y : Nat)
       (prof : StaffProfile),
      findStaffByUser db u = some prof → prof.isActive = true →
      ¬(prof.role = Role.collection ∨ prof.role = Role.warehouse ∨
        prof.role = Role.admin) →
      completePod db u req now y = (db, .error .roleForbidden)) ∧
    (∀ (db : DB) (u : Nat) (req : UpdatePackageRequest) (now : String)
       (prof : StaffProfile),
      findStaffByUser db u = some prof → prof.isActive = true →
      ¬(prof.role = Role.warehouse ∨ prof.role = Role.admin ∨
        prof.role = Role.collection) →
      updatePackage db u req now = (db, .error .roleForbidden)) ∧
    (∀ (db : DB) (u pid : Nat) (now : String) (es : Bool)
       (prof : StaffProfile),
      findStaffByUser db u = some prof → prof.isActive = true →
      ¬(prof.role = Role.driver ∨ prof.role = Role.admin) →
      driverPickup db u pid now es = (db, .error .roleForbidden)) := by
  refine ⟨?_, ?_, ?_, ?_, ?_, ?_, ?_⟩
  · intro db u req now prof pkg q h1 h2 h3 h4 hq hpk hl
    obtain ⟨r, hr⟩ : ∃ r,
        db.pods.find? (fun r => r.packageId == pkg.id && r.isLocked) = some r :=
      Option.isSome_iff_exists.mp
        (List.find?_isSome.mpr ⟨q, hq, by simp [hpk, hl]⟩)
    constructor
    · unfold updatePackage
      rcases h3 with h3 | h3 | h3 <;> simp [h1, h4, h2, h3, hr]
    · unfold updatePackage
      rcases h3 with h3 | h3 | h3 <;>
        simp [h1, h4, h2, h3, hr, appendAuditEntry]
  · intro db u req prof pkg ex h1 h2 h3 h4 h5 h6 h7 h8 now y
    constructor
    · unfold completePod completePodCheck
      rcases h3 with h3 | h3 | h3 <;>
        simp [h1, h7, h8, h2, h3, h4, h5, h6]
    · unfold completePod completePodCheck
      rcases h3 with h3 | h3 | h3 <;>
        simp [h1, h7, h8, h2, h3, h4, h5, h6, appendAuditEntry]
  · intro db cfg prof pod h1 h2 h3 h4 h5 h6
    constructor
    · unfold lockPod lockPodStart
      simp [h1, h3, h2, h4, h5, h6]
    · unfold lockPod lockPodStart
      simp [h1, h3, h2, h4, h5, h6, appendAuditEntry]
  · intro db cfg prof pod h1 h2 h3 h4
    unfold lockPod lockPodStart
    simp [h1, h3, h2, h4]
  · intro db u req now y prof h1 h2 h3
    have hr : (prof.role == Role.collection || prof.role == Role.warehouse ||
        prof.role == Role.admin) = false := by
      cases hrole : prof.role <;> simp_all [hrole]
    unfold completePod completePodCheck
    simp [h1, h2, hr]
  · intro db u req now prof h1 h2 h3
    have hr : (prof.role == Role.warehouse || prof.role == Role.admin ||
        prof.role == Role.collection) = false := by
      cases hrole : prof.role <;> simp_all [hrole]
    unfold updatePackage
    simp [h1, h2, hr]
  · intro db u pid now es prof h1 h2 h3
    have hr : (prof.role == Role.driver || prof.role == Role.admin) = false := by
      cases hrole : prof.role <;> simp_all [hrole]
    unfold driverPickup
    simp [h1, h2, hr]

/-- Witness for C7 amended at the fixtures: an admin's locked-package
    update appends the denial entry; a duplicate `complete-pod` appends the
    duplicate-attempt entry; a non-creator non-admin lock appends the
    lock-denied entry; an already-locked lock leaves the log untouched; a
    driver is turned away from `complete-pod` with no entry. -/
theorem C7_denials_audited_except_already_locked_and_role_witness :
    (updatePackage fxDbLockedPending 11
        { package_id := 100, status := some .collected, notes := none,
          receiver_email := none } "t5").1.audits =
      fxDbLockedPending.audits ++
        [{ action := "PACKAGE_UPDATE_DENIED", entityType := "package",
           entityId := 100, performedBy := 11 }] ∧
    (completePod fxDbLockedPending 12 fxCpReq "t1" 2025).1.audits =
      fxDbLockedPending.audits ++
        [{ action := "POD_DUPLICATE_ATTEMPT", entityType := "package",
           entityId := 100, performedBy := 12 }] ∧
    (lockPod fxDbUnlockedPending
        { userId := 13, pod_id := 200, pdf_url := none, pdf_path := none,
          now := "t3" }).1.audits =
      fxDbUnlockedPending.audits ++
        [{ action := "POD_LOCK_DENIED", entityType := "pod",
           entityId := 200, performedBy := 13 }] ∧
    lockPod fxDbLockedPending fxLockCfgPdf =
      (fxDbLockedPending, .error .alreadyLockedPre) ∧
    completePod fxDbPending 13 fxCpReq "t1" 2025 =
      (fxDbPending, .error .roleForbidden) := by
  refine ⟨?_, ?_, ?_, ?_, ?_⟩
  · exact (C7_denials_audited_except_already_locked_and_role.1
      fxDbLockedPending 11
      { package_id := 100, status := some .collected, notes := none,
        receiver_email := none } "t5" stAdmin (fxPkg .pending) fxPodLocked
      rfl rfl (Or.inr (Or.inl rfl)) rfl
      (by simp [fxDbLockedPending, fxDbPending]) rfl rfl).2
  · exact (C7_denials_audited_except_already_locked_and_role.2.1
      fxDbLockedPending 12 fxCpReq stColl (fxPkg .pending) fxPodLocked
      rfl rfl (Or.inl rfl) (by decide) (by decide) (by decide) rfl rfl
      "t1" 2025).2
  · exact (C7_denials_audited_except_already_locked_and_role.2.2.1
      fxDbUnlockedPending
      { userId := 13, pod_id := 200, pdf_url := none, pdf_path := none,
        now := "t3" } stDriver fxPodUnlocked rfl rfl rfl rfl
      (by decide) (by decide)).2
  · exact C7_denials_audited_except_already_locked_and_role.2.2.2.1
      fxDbLockedPending fxLockCfgPdf stColl fxPodLocked rfl rfl rfl rfl
  · exact C7_denials_audited_except_already_locked_and_role.2.2.2.2.1
      fxDbPending 13 fxCpReq "t1" 2025 stDriver rfl rfl (by decide)

/-- Counterexample to C8: the sequence is global and is not reset when the
    embedded year changes — after one 2025 reference, the first reference
    generated in 2026 carries sequence number 2, not a restarted 1. -/
theorem C8_cex_sequence_not_reset_per_year :
    (generate_pod_reference 2025 fxDbPending).1 = "POD-2025-0001" ∧
    (generate_pod_reference 2026
        (generate_pod_reference 2025 fxDbPending).2.2).1 = "POD-2026-0002" ∧
    "POD-2026-0002" ≠ "POD-2026-0001" := by
  exact ⟨rfl, rfl, by decide⟩

/-- C8 amended: every reference is `POD-<year>-<lpad4 n>` where `n` is the
    value of the single global sequence; the sequence strictly increases
    with every generation and is independent of the year argument, so
    numbers are strictly increasing across all pods (in particular within
    any one year) but never restart at a year boundary. -/
theorem C8_pod_reference_global_sequence :
    (∀ (db : DB) (y : Nat) (mk : Nat → String → Pod) (db' : DB) (pod : Pod),
      dbInsertPod db y mk = some (db', pod) →
      pod = mk db.nextPodId
        ("POD-" ++ toString y ++ "-" ++ lpad4 (toString db.podSeq)) ∧
      db'.podSeq = db.podSeq + 1) ∧
    (∀ (db : DB) (y1 y2 : Nat),
      (generate_pod_reference y2 (generate_pod_reference y1 db).2.2).2.1 >
        (generate_pod_reference y1 db).2.1) ∧
    (∀ (db : DB) (y1 y2 : Nat),
      (generate_pod_reference y1 db).2.2.podSeq =
        (generate_pod_reference y2 db).2.2.podSeq) := by
  refine ⟨?_, ?_, ?_⟩
  · intro db y mk db' pod h
    obtain ⟨-, -, -, hpod⟩ := dbInsertPod_some h
    exact ⟨hpod, (by
      unfold dbInsertPod generate_pod_reference at h
      simp only at h
      split at h
      · exact absurd h (by simp)
      · rw [Option.some.injEq, Prod.mk.injEq] at h
        rw [← h.1])⟩
  · intro db y1 y2
    exact Nat.lt_succ_self _
  · intro db y1 y2
    rfl

/-- Witness for C8 amended: a concrete successful insert carries the
    global sequence value and advances it. -/
theorem C8_pod_reference_global_sequence_witness :
    ∃ db' pod, dbInsertPod fxDbPending 2025 (fun i r => { fxPodUnlocked with id := i, podReference := r }) = some (db', pod) ∧
      pod.podReference = "POD-2025-0001" ∧ db'.podSeq = fxDbPending.podSeq + 1 := by
  refine ⟨_, _, rfl, ?_, ?_⟩
  · rw [(C8_pod_reference_global_sequence.1 fxDbPending 2025
      (fun i r => { fxPodUnlocked with id := i, podReference := r }) _ _ rfl).1]
    decide
  · exact (C8_pod_reference_global_sequence.1 fxDbPending 2025
      (fun i r => { fxPodUnlocked with id := i, podReference := r }) _ _ rfl).2

/-! ### The `lock-pod` test-and-set race (infrastructure for C3) -/

lemma lockPodStart_staff (db : DB) (cfg : LockCfg) :
    (lockPodStart db cfg).1.staff = db.staff := by
  unfold lockPodStart
  (repeat' split) <;> rfl

lemma lockPodTas_staff (db : DB) (cfg : LockCfg) :
    (lockPodTas db cfg).1.staff = db.staff := by
  unfold lockPodTas
  (repeat' split) <;> rfl

lemma PodsOK.of_pods_eq {db db' : DB} (h : db'.pods = db.pods) {i : Nat}
    {p : Pod} (hk : PodsOK db i p) : PodsOK db' i p := by
  unfold PodsOK at *
  rw [h]
  exact hk

lemma PodsOK.lockTas_replace {db : DB} {cfg : LockCfg} {i : Nat} {p : Pod}
    (hk : PodsOK db i p) (hi : cfg.pod_id = i) (hl : p.isLocked = false) :
    PodsOK { db with pods := db.pods.map (fun r =>
        if r.id == cfg.pod_id && !r.isLocked then lockUpdateData cfg r else r) }
      i (lockUpdateData cfg p) := by
  obtain ⟨hm, hid, huniq⟩ := hk
  refine ⟨?_, ?_, ?_⟩
  · have := List.mem_map_of_mem (fun r =>
      if r.id == cfg.pod_id && !r.isLocked then lockUpdateData cfg r else r) hm
    simpa [hid, hi, hl] using this
  · rw [lockUpdateData_id, hid]
  · intro q hq hqi
    obtain ⟨r, hr, hrq⟩ := List.mem_map.mp hq
    by_cases hc : (r.id == cfg.pod_id && !r.isLocked) = true
    · rw [if_pos hc] at hrq
      obtain ⟨hc1, hc2⟩ := Bool.and_eq_true _ _ |>.mp hc
      have : r = p := huniq r hr (by rw [hi] at hc1; simpa using hc1)
      rw [← hrq, this]
    · rw [if_neg hc] at hrq
      have hrp : r = p := huniq r hr (by rw [hrq]; exact hqi)
      exfalso
      apply hc
      rw [hrp]
      simp [hid, hi, hl]

lemma lockStep_start_unlocked {cfg : LockCfg} {db : DB} {i sid : Nat} {p : Pod}
    (hcfg : cfg.pod_id = i) (hauth : StaffAuthLock db.staff cfg sid)
    (hp : PodsOK db i p) (hsid : p.staffId = sid) (hl : p.isLocked = false) :
    lockStep cfg db .start = (db, .checked) := by
  obtain ⟨st, hst, hact, hrole⟩ := hauth
  have hfind : findStaffByUser db cfg.userId = some st := hst
  have hpod : findPod db cfg.pod_id = some p := by
    rw [hcfg]
    exact hp.findPod_eq
  unfold lockStep
  rw [lockPodStart_ok hfind hact hpod hl (by rw [hsid]; exact hrole)]

lemma lockStep_start_locked {cfg : LockCfg} {db : DB} {i sid : Nat} {p : Pod}
    (hcfg : cfg.pod_id = i) (hauth : StaffAuthLock db.staff cfg sid)
    (hp : PodsOK db i p) (hl : p.isLocked = true) :
    lockStep cfg db .start = (db, .done (.error .alreadyLockedPre)) := by
  obtain ⟨st, hst, hact, -⟩ := hauth
  have hfind : findStaffByUser db cfg.userId = some st := hst
  have hpod : findPod db cfg.pod_id = some p := by
    rw [hcfg]
    exact hp.findPod_eq
  unfold lockStep lockPodStart
  rw [hfind, hpod]
  simp [hact, hl]

lemma lockStep_checked_eq {cfg : LockCfg} {db db' : DB}
    {r : Except LockPodErr Pod} (h : lockPodTas db cfg = (db', r)) :
    lockStep cfg db .checked = (db', .done r) := by
  unfold lockStep
  rw [h]

lemma lockStep_checked_unlocked {cfg : LockCfg} {db : DB} {i : Nat} {p : Pod}
    (hcfg : cfg.pod_id = i) (hp : PodsOK db i p) (hl : p.isLocked = false) :
    ∃ db', lockStep cfg db .checked =
        (db', .done (.ok (lockUpdateData cfg p))) ∧
      db'.staff = db.staff ∧ PodsOK db' i (lockUpdateData cfg p) := by
  have hfind : db.pods.find? (fun q => q.id == cfg.pod_id && !q.isLocked) =
      some p := by
    rw [hcfg]
    have := hp.findUnlocked_eq
    rw [this, if_neg (by rw [hl]; simp)]
  have hres : lockPodTas db cfg = (appendAuditEntry { db with pods := db.pods.map (fun r => if r.id == cfg.pod_id && !r.isLocked then lockUpdateData cfg r else r) } { action := "POD_LOCKED", entityType := "pod", entityId := cfg.pod_id, performedBy := cfg.userId }, .ok (lockUpdateData cfg p)) := by
    unfold lockPodTas
    rw [hfind]
  exact ⟨_, lockStep_checked_eq hres, rfl,
         (hp.lockTas_replace hcfg hl).of_pods_eq rfl⟩

lemma lockStep_checked_locked {cfg : LockCfg} {db : DB} {i : Nat} {p : Pod}
    (hcfg : cfg.pod_id = i) (hp : PodsOK db i p) (hl : p.isLocked = true) :
    lockStep cfg db .checked = (db, .done (.error .lockConflict)) := by
  have hfind : db.pods.find? (fun q => q.id == cfg.pod_id && !q.isLocked) =
      none := by
    rw [hcfg]
    have := hp.findUnlocked_eq
    rw [this, if_pos hl]
  unfold lockStep lockPodTas
  rw [hfind]

lemma lockStep_done {cfg : LockCfg} {db : DB} {r : Except LockPodErr Pod} :
    lockStep cfg db (.done r) = (db, .done r) := rfl

lemma loserL_of_notDoneL {ph : LockPhase} (h : NotDoneL ph) : LoserL ph := by
  cases ph <;> simp_all [NotDoneL, LoserL]

lemma lockPairStep_eq_A {ca cb : LockCfg} {s : PairState LockPhase} {db' : DB}
    {ph' : LockPhase} (h : lockStep ca s.db s.phA = (db', ph')) :
    lockPairStep ca cb s true = { s with db := db', phA := ph' } := by
  unfold lockPairStep
  rw [h]
  rfl

lemma lockPairStep_eq_B {ca cb : LockCfg} {s : PairState LockPhase} {db' : DB}
    {ph' : LockPhase} (h : lockStep cb s.db s.phB = (db', ph')) :
    lockPairStep ca cb s false = { s with db := db', phB := ph' } := by
  unfold lockPairStep
  rw [h]
  rfl

lemma lockPairStep_inv {staff0 : List StaffProfile} {ca cb : LockCfg}
    {i sid : Nat}
    (hca : ca.pod_id = i) (hcb : cb.pod_id = i)
    (haa : StaffAuthLock staff0 ca sid) (hab : StaffAuthLock staff0 cb sid)
    {s : PairState LockPhase} (hinv : LockInv staff0 i sid s) (who : Bool) :
    LockInv staff0 i sid (lockPairStep ca cb s who) := by
  obtain ⟨hstaff, p, hp, hsid, hcase⟩ := hinv
  have haa' : StaffAuthLock s.db.staff ca sid := by rw [hstaff]; exact haa
  have hab' : StaffAuthLock s.db.staff cb sid := by rw [hstaff]; exact hab
  cases who with
  | true =>
    cases hA : s.phA with
    | done r =>
        have hstep : lockStep ca s.db s.phA = (s.db, s.phA) := by
          rw [hA]
          rfl
        rw [lockPairStep_eq_A hstep]
        exact ⟨hstaff, p, hp, hsid, hcase⟩
    | start =>
        rcases hcase with ⟨hl, hna, hnb⟩ | ⟨hl, hwon⟩
        · have hstep : lockStep ca s.db s.phA = (s.db, .checked) := by
            rw [hA]
            exact lockStep_start_unlocked hca haa' hp hsid hl
          rw [lockPairStep_eq_A hstep]
          exact ⟨hstaff, p, hp, hsid, Or.inl ⟨hl, trivial, hnb⟩⟩
        · have hstep : lockStep ca s.db s.phA =
              (s.db, .done (.error .alreadyLockedPre)) := by
            rw [hA]
            exact lockStep_start_locked hca haa' hp hl
          rw [lockPairStep_eq_A hstep]
          refine ⟨hstaff, p, hp, hsid, Or.inr ⟨hl, ?_⟩⟩
          rcases hwon with ⟨hwa, -⟩ | ⟨hwb, -⟩
          · rw [hA] at hwa
            exact absurd hwa (by simp [WonL])
          · exact Or.inr ⟨hwb, by simp [LoserL, lockPodKind]⟩
    | checked =>
        rcases hcase with ⟨hl, hna, hnb⟩ | ⟨hl, hwon⟩
        · obtain ⟨db', hstep0, hstaff', hp'⟩ := lockStep_checked_unlocked hca hp hl
          have hstep : lockStep ca s.db s.phA =
              (db', .done (.ok (lockUpdateData ca p))) := by
            rw [hA]
            exact hstep0
          rw [lockPairStep_eq_A hstep]
          refine ⟨by rw [hstaff']; exact hstaff,
                  lockUpdateData ca p, hp',
                  by rw [lockUpdateData_staffId]; exact hsid,
                  Or.inr ⟨lockUpdateData_isLocked ca p, Or.inl ⟨trivial, ?_⟩⟩⟩
          exact loserL_of_notDoneL hnb
        · have hstep : lockStep ca s.db s.phA =
              (s.db, .done (.error .lockConflict)) := by
            rw [hA]
            exact lockStep_checked_locked hca hp hl
          rw [lockPairStep_eq_A hstep]
          refine ⟨hstaff, p, hp, hsid, Or.inr ⟨hl, ?_⟩⟩
          rcases hwon with ⟨hwa, -⟩ | ⟨hwb, -⟩
          · rw [hA] at hwa
            exact absurd hwa (by simp [WonL])
          · exact Or.inr ⟨hwb, by simp [LoserL, lockPodKind]⟩
  | false =>
    cases hB : s.phB with
    | done r =>
        have hstep : lockStep cb s.db s.phB = (s.db, s.phB) := by
          rw [hB]
          rfl
        rw [lockPairStep_eq_B hstep]
        exact ⟨hstaff, p, hp, hsid, hcase⟩
    | start =>
        rcases hcase with ⟨hl, hna, hnb⟩ | ⟨hl, hwon⟩
        · have hstep : lockStep cb s.db s.phB = (s.db, .checked) := by
            rw [hB]
            exact lockStep_start_unlocked hcb hab' hp hsid hl
          rw [lockPairStep_eq_B hstep]
          exact ⟨hstaff, p, hp, hsid, Or.inl ⟨hl, hna, trivial⟩⟩
        · have hstep : lockStep cb s.db s.phB =
              (s.db, .done (.error .alreadyLockedPre)) := by
            rw [hB]
            exact lockStep_start_locked hcb hab' hp hl
          rw [lockPairStep_eq_B hstep]
          refine ⟨hstaff, p, hp, hsid, Or.inr ⟨hl, ?_⟩⟩
          rcases hwon with ⟨hwa, -⟩ | ⟨hwb, -⟩
          · exact Or.inl ⟨hwa, by simp [LoserL, lockPodKind]⟩
          · rw [hB] at hwb
            exact absurd hwb (by simp [WonL])
    | checked =>
        rcases hcase with ⟨hl, hna, hnb⟩ | ⟨hl, hwon⟩
        · obtain ⟨db', hstep0, hstaff', hp'⟩ := lockStep_checked_unlocked hcb hp hl
          have hstep : lockStep cb s.db s.phB =
              (db', .done (.ok (lockUpdateData cb p))) := by
            rw [hB]
            exact hstep0
          rw [lockPairStep_eq_B hstep]
          refine ⟨by rw [hstaff']; exact hstaff,
                  lockUpdateData cb p, hp',
                  by rw [lockUpdateData_staffId]; exact hsid,
                  Or.inr ⟨lockUpdateData_isLocked cb p, Or.inr ⟨trivial, ?_⟩⟩⟩
          exact loserL_of_notDoneL hna
        · have hstep : lockStep cb s.db s.phB =
              (s.db, .done (.error .lockConflict)) := by
            rw [hB]
            exact lockStep_checked_locked hcb hp hl
          rw [lockPairStep_eq_B hstep]
          refine ⟨hstaff, p, hp, hsid, Or.inr ⟨hl, ?_⟩⟩
          rcases hwon with ⟨hwa, -⟩ | ⟨hwb, -⟩
          · exact Or.inl ⟨hwa, by simp [LoserL, lockPodKind]⟩
          · rw [hB] at hwb
            exact absurd hwb (by simp [WonL])

lemma lockRunPair_inv {staff0 : List StaffProfile} {ca cb : LockCfg}
    {i sid : Nat}
    (hca : ca.pod_id = i) (hcb : cb.pod_id = i)
    (haa : StaffAuthLock staff0 ca sid) (hab : StaffAuthLock staff0 cb sid)
    {s : PairState LockPhase} (hinv : LockInv staff0 i sid s)
    (sched : List Bool) :
    LockInv staff0 i sid (lockRunPair ca cb s sched) := by
  induction sched generalizing s with
  | nil => exact hinv
  | cons b t ih =>
      exact ih (lockPairStep_inv hca hcb haa hab hinv b)

/-! ### Pod-uniqueness preservation and the `complete-pod` race
(infrastructure for C1) -/

lemma atMostOne_of_pods_eq {db db' : DB} (h : db'.pods = db.pods)
    (hu : AtMostOnePodPerPackage db) : AtMostOnePodPerPackage db' := by
  intro p1 hp1 p2 hp2
  rw [h] at hp1 hp2
  exact hu p1 hp1 p2 hp2

lemma atMostOne_map_pods {db : DB} {f : Pod → Pod}
    (hf : ∀ r, (f r).packageId = r.packageId)
    (hu : AtMostOnePodPerPackage db) :
    AtMostOnePodPerPackage { db with pods := db.pods.map f } := by
  intro p1 hp1 p2 hp2 hpk
  simp only at hp1 hp2
  obtain ⟨r1, hr1, e1⟩ := List.mem_map.mp hp1
  obtain ⟨r2, hr2, e2⟩ := List.mem_map.mp hp2
  have : r1 = r2 := hu r1 hr1 r2 hr2 (by rw [← hf r1, ← hf r2, e1, e2, hpk])
  rw [← e1, ← e2, this]

lemma dbInsertPod_some_guard {db : DB} {y : Nat} {mk : Nat → String → Pod}
    {db' : DB} {pod : Pod} (h : dbInsertPod db y mk = some (db', pod)) :
    ∀ q ∈ db.pods, q.packageId ≠ pod.packageId := by
  unfold dbInsertPod generate_pod_reference at h
  simp only at h
  split at h
  · exact absurd h (by simp)
  · next hgu =>
      rw [Option.some.injEq, Prod.mk.injEq] at h
      obtain ⟨h1, h2⟩ := h
      subst h2
      intro q hq he
      exact hgu (List.any_eq_true.mpr ⟨q, hq, by simp [he]⟩)

lemma atMostOne_insert {db : DB} {y : Nat} {mk : Nat → String → Pod}
    {db' : DB} {pod : Pod} (h : dbInsertPod db y mk = some (db', pod))
    (hu : AtMostOnePodPerPackage db) : AtMostOnePodPerPackage db' := by
  have hpods := (dbInsertPod_some h).1
  have hguard := dbInsertPod_some_guard h
  intro p1 hp1 p2 hp2 hpk
  rw [hpods] at hp1 hp2
  rcases List.mem_append.mp hp1 with h1 | h1 <;>
    rcases List.mem_append.mp hp2 with h2 | h2
  · exact hu p1 h1 p2 h2 hpk
  · have e2 : p2 = pod := by simpa using h2
    subst e2
    exact absurd hpk (hguard p1 h1)
  · have e1 : p1 = pod := by simpa using h1
    subst e1
    exact absurd hpk.symm (hguard p2 h2)
  · have e1 : p1 = pod := by simpa using h1
    have e2 : p2 = pod := by simpa using h2
    rw [e1, e2]

lemma atMostOne_completePodFinish {db : DB} {u : Nat} {req : CompletePodRequest}
    {prof : StaffProfile} {pkg : Package} {now : String} {y : Nat}
    (hu : AtMostOnePodPerPackage db) :
    AtMostOnePodPerPackage (completePodFinish db u req prof pkg now y).1 := by
  unfold completePodFinish
  split
  · exact hu
  · next db1 pod h =>
      have h1 : AtMostOnePodPerPackage db1 := atMostOne_insert h hu
      intro p1 hp1 p2 hp2 hpk
      simp only [appendAuditEntry_pods, dbUpdatePackageTolerant_pods] at hp1 hp2
      exact h1 p1 hp1 p2 hp2 hpk

lemma atMostOne_completePod {db : DB} {u : Nat} {req : CompletePodRequest}
    {now : String} {y : Nat} (hu : AtMostOnePodPerPackage db) :
    AtMostOnePodPerPackage (completePod db u req now y).1 := by
  unfold completePod
  split
  · next db1 e h =>
      refine atMostOne_of_pods_eq ?_ hu
      have := completePodCheck_pods db u req
      rw [h] at this
      exact this
  · next db1 prof pkg h =>
      have hpods : db1.pods = db.pods := by
        have := completePodCheck_pods db u req
        rw [h] at this
        exact this
      exact atMostOne_completePodFinish (atMostOne_of_pods_eq hpods hu)

lemma atMostOne_lockPodTas {db : DB} {cfg : LockCfg}
    (hu : AtMostOnePodPerPackage db) :
    AtMostOnePodPerPackage (lockPodTas db cfg).1 := by
  unfold lockPodTas
  split
  · exact hu
  · refine atMostOne_of_pods_eq rfl (atMostOne_map_pods ?_ hu)
    intro r
    by_cases hc : (r.id == cfg.pod_id && !r.isLocked) = true <;>
      simp [hc, lockUpdateData_packageId]

lemma atMostOne_lockPod {db : DB} {cfg : LockCfg}
    (hu : AtMostOnePodPerPackage db) :
    AtMostOnePodPerPackage (lockPod db cfg).1 := by
  unfold lockPod
  split
  · next db1 r h =>
      refine atMostOne_of_pods_eq ?_ hu
      have := lockPodStart_pods db cfg
      rw [h] at this
      exact this
  · next db1 h =>
      have hpods : db1.pods = db.pods := by
        have := lockPodStart_pods db cfg
        rw [h] at this
        exact this
      exact atMostOne_lockPodTas (atMostOne_of_pods_eq hpods hu)

lemma atMostOne_cpStep (cfg : CpCfg) {db : DB} (ph : CpPhase)
    (hu : AtMostOnePodPerPackage db) :
    AtMostOnePodPerPackage (cpStep cfg db ph).1 := by
  cases ph with
  | start =>
      cases h : completePodCheck db cfg.userId cfg.req with
      | mk db1 r =>
          have hpods : db1.pods = db.pods := by
            have := completePodCheck_pods db cfg.userId cfg.req
            rw [h] at this
            exact this
          cases r with
          | error e =>
              have hstep : cpStep cfg db .start = (db1, .done (.error e)) := by
                unfold cpStep
                rw [h]
              rw [hstep]
              exact atMostOne_of_pods_eq hpods hu
          | ok pr =>
              obtain ⟨prof, pkg⟩ := pr
              have hstep : cpStep cfg db .start = (db1, .checked prof pkg) := by
                unfold cpStep
                rw [h]
              rw [hstep]
              exact atMostOne_of_pods_eq hpods hu
  | checked prof pkg => exact atMostOne_completePodFinish hu
  | done r => exact hu

lemma atMostOne_cpRunPair {ca cb : CpCfg} {s : PairState CpPhase}
    (hu : AtMostOnePodPerPackage s.db) (sched : List Bool) :
    AtMostOnePodPerPackage (cpRunPair ca cb s sched).db := by
  induction sched generalizing s with
  | nil => exact hu
  | cons b t ih =>
      refine ih ?_
      unfold cpPairStep
      cases b with
      | true =>
          simp only [if_pos]
          cases h : cpStep ca s.db s.phA with
          | mk db' ph' =>
              have := atMostOne_cpStep ca s.phA hu
              rw [h] at this
              exact this
      | false =>
          simp only [Bool.false_eq_true, if_neg]
          cases h : cpStep cb s.db s.phB with
          | mk db' ph' =>
              have := atMostOne_cpStep cb s.phB hu
              rw [h] at this
              exact this

lemma PkgsOK.of_packages_eq {db db' : DB} (h : db'.packages = db.packages)
    {i : Nat} {k : Package} (hk : PkgsOK db i k) : PkgsOK db' i k := by
  unfold PkgsOK at *
  rw [h]
  exact hk

lemma PkgsOK.update_self {db : DB} {i : Nat} {k : Package} {f : Package → Package}
    (hk : PkgsOK db i k) (hf : ∀ r, (f r).id = r.id) :
    PkgsOK { db with packages :=
      db.packages.map (fun p => if p.id == i then f p else p) } i (f k) := by
  obtain ⟨hm, hid, huniq⟩ := hk
  refine ⟨?_, by rw [hf, hid], ?_⟩
  · refine List.mem_map.mpr ⟨k, hm, ?_⟩
    simp [hid]
  · intro q hq hqi
    obtain ⟨r, hr, hrq⟩ := List.mem_map.mp hq
    by_cases hc : (r.id == i) = true
    · rw [if_pos hc] at hrq
      have : r = k := huniq r hr (by simpa using hc)
      rw [← hrq, this]
    · rw [if_neg hc] at hrq
      have : r.id = i := by rw [hrq]; exact hqi
      exact absurd (by simp [this]) hc

lemma completePodFinish_fail {db : DB} {u : Nat} {req : CompletePodRequest}
    {prof : StaffProfile} {pkg : Package} {now : String} {y : Nat} {i : Nat}
    (hex : HasPodFor db i) (hpk : pkg.id = i) :
    completePodFinish db u req prof pkg now y = (db, .error .insertFailed) := by
  obtain ⟨ex, hm, hpkid⟩ := hex
  unfold completePodFinish
  cases hins : dbInsertPod db y (fun podId ref =>
    { id := podId, podReference := ref, packageId := pkg.id,
      packageReference := pkg.reference, receiverEmail := pkg.receiverEmail,
      staffId := prof.id, staffName := prof.fullName, staffEmail := prof.email,
      signatureUrl := req.signature_url, signaturePath := req.signature_path,
      signedAt := req.signed_at, completedAt := now,
      pdfUrl := none, pdfPath := none, pdfGeneratedAt := none,
      isLocked := false, lockedAt := none,
      notes := match req.notes with
        | some s => if s.trim != "" then some s.trim else pkg.notes
        | none => pkg.notes }) with
  | none => rfl
  | some x =>
      exfalso
      unfold dbInsertPod generate_pod_reference at hins
      simp only at hins
      split at hins
      · exact absurd hins (by simp)
      · next hgu =>
          exact hgu (List.any_eq_true.mpr ⟨ex, hm, by simp [hpkid, hpk]⟩)

lemma completePodFinish_race_ok {db : DB} (u : Nat) {req : CompletePodRequest}
    (prof : StaffProfile) {pkg : Package} (now : String) (y : Nat) {i : Nat}
    {k : Package}
    (hnp : NoPodFor db i) (hpk : pkg.id = i) (hreq : req.package_id = i)
    (hk : PkgsOK db i k) :
    ∃ pod db4, completePodFinish db u req prof pkg now y = (db4, .ok pod) ∧
      db4.staff = db.staff ∧ pod.packageId = i ∧ HasPodFor db4 i ∧
      ∃ k', PkgsOK db4 i k' := by
  subst hreq
  unfold completePodFinish
  cases hins : dbInsertPod db y (fun podId ref =>
    { id := podId, podReference := ref, packageId := pkg.id,
      packageReference := pkg.reference, receiverEmail := pkg.receiverEmail,
      staffId := prof.id, staffName := prof.fullName, staffEmail := prof.email,
      signatureUrl := req.signature_url, signaturePath := req.signature_path,
      signedAt := req.signed_at, completedAt := now,
      pdfUrl := none, pdfPath := none, pdfGeneratedAt := none,
      isLocked := false, lockedAt := none,
      notes := match req.notes with
        | some s => if s.trim != "" then some s.trim else pkg.notes
        | none => pkg.notes }) with
  | none =>
      exfalso
      unfold dbInsertPod generate_pod_reference at hins
      simp only at hins
      split at hins
      · next hc =>
          obtain ⟨q, hq, hqe⟩ := List.any_eq_true.mp hc
          exact hnp q hq (by rw [← hpk]; simpa using hqe)
      · exact absurd hins (by simp)
  | some x =>
      obtain ⟨db1, pod⟩ := x
      obtain ⟨hpods, hstaff1, hpkgs1, hpod⟩ := dbInsertPod_some hins
      have hcond : ∀ p ∈ (appendAuditEntry db1
            { action := "POD_CREATED", entityType := "pod",
              entityId := pod.id, performedBy := u }).packages,
          p.id = req.package_id →
          ∀ q ∈ (appendAuditEntry db1
            { action := "POD_CREATED", entityType := "pod",
              entityId := pod.id, performedBy := u }).pods,
          q.packageId = p.id → q.isLocked = false := by
        intro p hp hpid q hq hqpid
        simp only [appendAuditEntry_pods] at hq
        rw [hpods] at hq
        rcases List.mem_append.mp hq with hq | hq
        · exact absurd (hqpid.trans hpid) (hnp q hq)
        · have hqpod : q = pod := by simpa using hq
          subst hqpod
          rw [hpod]
      refine ⟨pod, _, rfl, ?_, ?_, ?_, ?_⟩
      · simp only [appendAuditEntry_staff, dbUpdatePackageTolerant_staff]
        exact hstaff1
      · rw [hpod]
        exact hpk
      · refine ⟨pod, ?_, by rw [hpod]; exact hpk⟩
        simp only [appendAuditEntry_pods, dbUpdatePackageTolerant_pods]
        rw [hpods]
        exact List.mem_append_right _ (by simp)
      · have hk1 : PkgsOK (appendAuditEntry db1
            { action := "POD_CREATED", entityType := "pod",
              entityId := pod.id, performedBy := u }) req.package_id k :=
          hk.of_packages_eq (by rw [appendAuditEntry_packages, hpkgs1])
        have hk2 := hk1.update_self (f := fun p =>
          { p with status := PackageStatus.collected, collectedAt := some now,
                   collectedBy := some u, podId := some pod.id,
                   signatureUrl := some req.signature_url,
                   signaturePath := some req.signature_path,
                   signedAt := some req.signed_at, updatedAt := now })
          (by intro r; rfl)
        refine ⟨_, hk2.of_packages_eq ?_⟩
        rw [appendAuditEntry_packages, dbUpdatePackageTolerant_of_ok hcond]

lemma cpStep_start_err {cfg : CpCfg} {db db' : DB} {e : CompletePodErr}
    (h : completePodCheck db cfg.userId cfg.req = (db', .error e)) :
    cpStep cfg db .start = (db', .done (.error e)) := by
  unfold cpStep
  rw [h]

lemma cpStep_start_pass {cfg : CpCfg} {db db' : DB} {prof : StaffProfile}
    {pkg : Package}
    (h : completePodCheck db cfg.userId cfg.req = (db', .ok (prof, pkg))) :
    cpStep cfg db .start = (db', .checked prof pkg) := by
  unfold cpStep
  rw [h]

lemma cpStep_checked_eq {cfg : CpCfg} {db db' : DB} {prof : StaffProfile}
    {pkg : Package} {r : Except CompletePodErr Pod}
    (h : completePodFinish db cfg.userId cfg.req prof pkg cfg.now cfg.year =
      (db', r)) :
    cpStep cfg db (.checked prof pkg) = (db', .done r) := by
  show ((completePodFinish db cfg.userId cfg.req prof pkg cfg.now cfg.year).1,
      CpPhase.done
        (completePodFinish db cfg.userId cfg.req prof pkg cfg.now cfg.year).2) =
    (db', CpPhase.done r)
  rw [h]

lemma cpStep_done_eq {cfg : CpCfg} {db : DB} {r : Except CompletePodErr Pod} :
    cpStep cfg db (.done r) = (db, .done r) := rfl

lemma cpStep_start_nopod {staff0 : List StaffProfile} {cfg : CpCfg} {db : DB}
    {i : Nat} {k : Package}
    (hauth : StaffAuthCp staff0 cfg i) (hstaff : db.staff = staff0)
    (hk : PkgsOK db i k) (hnp : NoPodFor db i)
    (hst : k.status ≠ PackageStatus.collected) :
    ∃ prof, cpStep cfg db .start = (db, .checked prof k) := by
  obtain ⟨hpid, h4, h5, h6, st, hstf, hact, hrole⟩ := hauth
  have h1 : findStaffByUser db cfg.userId = some st := by
    unfold findStaffByUser
    rw [hstaff]
    exact hstf
  have h7 : findPackage db cfg.req.package_id = some k := by
    rw [hpid]
    exact hk.findPackage_eq
  have h8 : findPodByPackage db cfg.req.package_id = none := by
    rw [hpid]
    exact hnp.findPodByPackage_eq
  exact ⟨st, cpStep_start_pass (completePodCheck_ok h1 hact hrole h4 h5 h6 h7 h8 hst)⟩

lemma cpStep_start_haspod {staff0 : List StaffProfile} {cfg : CpCfg} {db : DB}
    {i : Nat} {k : Package}
    (hauth : StaffAuthCp staff0 cfg i) (hstaff : db.staff = staff0)
    (hk : PkgsOK db i k) (hex : HasPodFor db i) :
    cpStep cfg db .start =
      (appendAuditEntry db
        { action := "POD_DUPLICATE_ATTEMPT", entityType := "package",
          entityId := cfg.req.package_id, performedBy := cfg.userId },
       .done (.error .duplicatePod)) := by
  obtain ⟨hpid, h4, h5, h6, st, hstf, hact, hrole⟩ := hauth
  have h1 : findStaffByUser db cfg.userId = some st := by
    unfold findStaffByUser
    rw [hstaff]
    exact hstf
  have h7 : findPackage db cfg.req.package_id = some k := by
    rw [hpid]
    exact hk.findPackage_eq
  obtain ⟨ex, hm, hpkid⟩ := hex
  obtain ⟨ex', h8⟩ : ∃ ex', findPodByPackage db cfg.req.package_id = some ex' := by
    rw [hpid]
    exact Option.isSome_iff_exists.mp
      (List.find?_isSome.mpr ⟨ex, hm, by simp [hpkid]⟩)
  apply cpStep_start_err
  unfold completePodCheck
  rw [h1, h7, h8]
  rcases hrole with h | h | h <;> simp [hact, h, h4, h5, h6]

lemma cpStep_checked_nopod {cfg : CpCfg} {db : DB} {i : Nat} {k : Package}
    (prof : StaffProfile) {pkg : Package}
    (hnp : NoPodFor db i) (hpk : pkg.id = i) (hreq : cfg.req.package_id = i)
    (hk : PkgsOK db i k) :
    ∃ pod db4, cpStep cfg db (.checked prof pkg) = (db4, .done (.ok pod)) ∧
      db4.staff = db.staff ∧ HasPodFor db4 i ∧ ∃ k', PkgsOK db4 i k' := by
  obtain ⟨pod, db4, hfin, hstaff, hpkid, hhas, hk'⟩ :=
    completePodFinish_race_ok cfg.userId prof cfg.now cfg.year hnp hpk hreq hk
  exact ⟨pod, db4, cpStep_checked_eq hfin, hstaff, hhas, hk'⟩

lemma cpStep_checked_haspod {cfg : CpCfg} {db : DB} {i : Nat}
    {prof : StaffProfile} {pkg : Package}
    (hex : HasPodFor db i) (hpk : pkg.id = i) :
    cpStep cfg db (.checked prof pkg) = (db, .done (.error .insertFailed)) :=
  cpStep_checked_eq (completePodFinish_fail hex hpk)

lemma cpPairStep_eq_A {ca cb : CpCfg} {s : PairState CpPhase} {db' : DB}
    {ph' : CpPhase} (h : cpStep ca s.db s.phA = (db', ph')) :
    cpPairStep ca cb s true = { s with db := db', phA := ph' } := by
  unfold cpPairStep
  rw [h]
  rfl

lemma cpPairStep_eq_B {ca cb : CpCfg} {s : PairState CpPhase} {db' : DB}
    {ph' : CpPhase} (h : cpStep cb s.db s.phB = (db', ph')) :
    cpPairStep ca cb s false = { s with db := db', phB := ph' } := by
  unfold cpPairStep
  rw [h]
  rfl

lemma loserCp_of_notDoneCp {i : Nat} {ph : CpPhase} (h : NotDoneCp i ph) :
    LoserCp i ph := by
  cases ph <;> simp_all [NotDoneCp, LoserCp]

lemma cpPairStep_inv {staff0 : List StaffProfile} {ca cb : CpCfg} {i : Nat}
    (haa : StaffAuthCp staff0 ca i) (hab : StaffAuthCp staff0 cb i)
    {s : PairState CpPhase} (hinv : CpInv staff0 i s) (who : Bool) :
    CpInv staff0 i (cpPairStep ca cb s who) := by
  obtain ⟨hstaff, k, hk, hcase⟩ := hinv
  cases who with
  | true =>
    cases hA : s.phA with
    | done r =>
        have hstep : cpStep ca s.db s.phA = (s.db, s.phA) := by
          rw [hA]
          rfl
        rw [cpPairStep_eq_A hstep]
        exact ⟨hstaff, k, hk, hcase⟩
    | start =>
        rcases hcase with ⟨hnp, hst, hna, hnb⟩ | ⟨hex, hwon⟩
        · obtain ⟨prof, hstep0⟩ := cpStep_start_nopod haa hstaff hk hnp hst
          have hstep : cpStep ca s.db s.phA = (s.db, .checked prof k) := by
            rw [hA]
            exact hstep0
          rw [cpPairStep_eq_A hstep]
          exact ⟨hstaff, k, hk, Or.inl ⟨hnp, hst, hk.2.1, hnb⟩⟩
        · have hstep : cpStep ca s.db s.phA =
              (appendAuditEntry s.db
                { action := "POD_DUPLICATE_ATTEMPT", entityType := "package",
                  entityId := ca.req.package_id, performedBy := ca.userId },
               .done (.error .duplicatePod)) := by
            rw [hA]
            exact cpStep_start_haspod haa hstaff hk hex
          rw [cpPairStep_eq_A hstep]
          refine ⟨by rw [appendAuditEntry_staff]; exact hstaff, k,
                  hk.of_packages_eq (by rw [appendAuditEntry_packages]),
                  Or.inr ⟨hex, ?_⟩⟩
          rcases hwon with ⟨hwa, -⟩ | ⟨hwb, -⟩
          · rw [hA] at hwa
            exact hwa.elim
          · exact Or.inr ⟨hwb, Or.inl rfl⟩
    | checked prof pkg =>
        rcases hcase with ⟨hnp, hst, hna, hnb⟩ | ⟨hex, hwon⟩
        · have hpkid : pkg.id = i := by
            rw [hA] at hna
            exact hna
          obtain ⟨pod, db4, hstep0, hstaff4, hhas, k', hk'⟩ :=
            cpStep_checked_nopod prof hnp hpkid haa.1 hk
          have hstep : cpStep ca s.db s.phA = (db4, .done (.ok pod)) := by
            rw [hA]
            exact hstep0
          rw [cpPairStep_eq_A hstep]
          exact ⟨by rw [hstaff4]; exact hstaff, k', hk',
                 Or.inr ⟨hhas, Or.inl ⟨trivial, loserCp_of_notDoneCp hnb⟩⟩⟩
        · have hpkid : pkg.id = i := by
            rcases hwon with ⟨hwa, -⟩ | ⟨-, hla⟩
            · rw [hA] at hwa
              exact hwa.elim
            · rw [hA] at hla
              exact hla
          have hstep : cpStep ca s.db s.phA =
              (s.db, .done (.error .insertFailed)) := by
            rw [hA]
            exact cpStep_checked_haspod hex hpkid
          rw [cpPairStep_eq_A hstep]
          refine ⟨hstaff, k, hk, Or.inr ⟨hex, ?_⟩⟩
          rcases hwon with ⟨hwa, -⟩ | ⟨hwb, -⟩
          · rw [hA] at hwa
            exact hwa.elim
          · exact Or.inr ⟨hwb, Or.inr rfl⟩
  | false =>
    cases hB : s.phB with
    | done r =>
        have hstep : cpStep cb s.db s.phB = (s.db, s.phB) := by
          rw [hB]
          rfl
        rw [cpPairStep_eq_B hstep]
        exact ⟨hstaff, k, hk, hcase⟩
    | start =>
        rcases hcase with ⟨hnp, hst, hna, hnb⟩ | ⟨hex, hwon⟩
        · obtain ⟨prof, hstep0⟩ := cpStep_start_nopod hab hstaff hk hnp hst
          have hstep : cpStep cb s.db s.phB = (s.db, .checked prof k) := by
            rw [hB]
            exact hstep0
          rw [cpPairStep_eq_B hstep]
          exact ⟨hstaff, k, hk, Or.inl ⟨hnp, hst, hna, hk.2.1⟩⟩
        · have hstep : cpStep cb s.db s.phB =
              (appendAuditEntry s.db
                { action := "POD_DUPLICATE_ATTEMPT", entityType := "package",
                  entityId := cb.req.package_id, performedBy := cb.userId },
               .done (.error .duplicatePod)) := by
            rw [hB]
            exact cpStep_start_haspod hab hstaff hk hex
          rw [cpPairStep_eq_B hstep]
          refine ⟨by rw [appendAuditEntry_staff]; exact hstaff, k,
                  hk.of_packages_eq (by rw [appendAuditEntry_packages]),
                  Or.inr ⟨hex, ?_⟩⟩
          rcases hwon with ⟨hwa, -⟩ | ⟨hwb, -⟩
          · exact Or.inl ⟨hwa, Or.inl rfl⟩
          · rw [hB] at hwb
            exact hwb.elim
    | checked prof pkg =>
        rcases hcase with ⟨hnp, hst, hna, hnb⟩ | ⟨hex, hwon⟩
        · have hpkid : pkg.id = i := by
            rw [hB] at hnb
            exact hnb
          obtain ⟨pod, db4, hstep0, hstaff4, hhas, k', hk'⟩ :=
            cpStep_checked_nopod prof hnp hpkid hab.1 hk
          have hstep : cpStep cb s.db s.phB = (db4, .done (.ok pod)) := by
            rw [hB]
            exact hstep0
          rw [cpPairStep_eq_B hstep]
          exact ⟨by rw [hstaff4]; exact hstaff, k', hk',
                 Or.inr ⟨hhas, Or.inr ⟨trivial, loserCp_of_notDoneCp hna⟩⟩⟩
        · have hpkid : pkg.id = i := by
            rcases hwon with ⟨-, hla⟩ | ⟨hwb, -⟩
            · rw [hB] at hla
              exact hla
            · rw [hB] at hwb
              exact hwb.elim
          have hstep : cpStep cb s.db s.phB =
              (s.db, .done (.error .insertFailed)) := by
            rw [hB]
            exact cpStep_checked_haspod hex hpkid
          rw [cpPairStep_eq_B hstep]
          refine ⟨hstaff, k, hk, Or.inr ⟨hex, ?_⟩⟩
          rcases hwon with ⟨hwa, -⟩ | ⟨hwb, -⟩
          · exact Or.inl ⟨hwa, Or.inr rfl⟩
          · rw [hB] at hwb
            exact hwb.elim

lemma cpRunPair_inv {staff0 : List StaffProfile} {ca cb : CpCfg} {i : Nat}
    (haa : StaffAuthCp staff0 ca i) (hab : StaffAuthCp staff0 cb i)
    {s : PairState CpPhase} (hinv : CpInv staff0 i s) (sched : List Bool) :
    CpInv staff0 i (cpRunPair ca cb s sched) := by
  induction sched generalizing s with
  | nil => exact hinv
  | cons b t ih =>
      exact ih (cpPairStep_inv haa hab hinv b)

/-- Counterexample to C1: uniqueness itself holds (the final state has one
    pod), but in the interleaving where both `complete-pod` calls pass the
    check-then-insert duplicate lookup before either inserts, the loser's
    insert hits the `unique_package_pod` constraint and the handler returns
    the generic 500 creation failure — error kind `InternalError`, not
    `DuplicatePod` as the claim requires. -/
theorem C1_cex_race_loser_not_duplicate_pod :
    ((cpRunPair { userId := 11, req := fxCpReq, now := "t1", year := 2025 }
        { userId := 12, req := fxCpReq, now := "t2", year := 2025 }
        ⟨fxDbPending, .start, .start⟩ [true, false, true, false]).phB =
      .done (.error .insertFailed)) ∧
    completePodKind .insertFailed = ErrKind.internalError ∧
    ErrKind.internalError ≠ ErrKind.duplicatePod ∧
    (cpRunPair { userId := 11, req := fxCpReq, now := "t1", year := 2025 }
        { userId := 12, req := fxCpReq, now := "t2", year := 2025 }
        ⟨fxDbPending, .start, .start⟩ [true, false, true, false]).db.pods.length
      = 1 := by
  exact ⟨rfl, rfl, by decide, rfl⟩

/-- C1 amended: at most one Pod per package always holds — the
    `unique_package_pod` constraint makes the insert the atomic step, and
    every handler (and every interleaving of two `complete-pod` calls)
    preserves the invariant; of two interleaved `complete-pod` calls for
    the same package that both finish, exactly one succeeds, but the loser
    receives `DuplicatePod` only when its pre-insert check sees the
    existing pod — when it loses the insert race it receives the generic
    internal error instead. -/
theorem C1_pod_uniqueness_and_race :
    (∀ db : DB, AtMostOnePodPerPackage db →
      (∀ u req now y, AtMostOnePodPerPackage (completePod db u req now y).1) ∧
      (∀ cfg, AtMostOnePodPerPackage (lockPod db cfg).1) ∧
      (∀ u req now, AtMostOnePodPerPackage (updatePackage db u req now).1) ∧
      (∀ u pid now es, AtMostOnePodPerPackage (driverPickup db u pid now es).1) ∧
      (∀ u req, AtMostOnePodPerPackage (logAudit db u req).1)) ∧
    (∀ (ca cb : CpCfg) (s : PairState CpPhase) (sched : List Bool),
      AtMostOnePodPerPackage s.db →
      AtMostOnePodPerPackage (cpRunPair ca cb s sched).db) ∧
    (∀ (staff0 : List StaffProfile) (db : DB) (ca cb : CpCfg) (i : Nat)
       (k : Package) (sched : List Bool),
      db.staff = staff0 → StaffAuthCp staff0 ca i → StaffAuthCp staff0 cb i →
      PkgsOK db i k → NoPodFor db i → k.status ≠ PackageStatus.collected →
      ∀ ra rb,
        (cpRunPair ca cb ⟨db, .start, .start⟩ sched).phA = .done ra →
        (cpRunPair ca cb ⟨db, .start, .start⟩ sched).phB = .done rb →
        ((∃ pod, ra = .ok pod) ∧
          ∃ e, rb = .error e ∧ (completePodKind e = ErrKind.duplicatePod ∨
            completePodKind e = ErrKind.internalError)) ∨
        ((∃ pod, rb = .ok pod) ∧
          ∃ e, ra = .error e ∧ (completePodKind e = ErrKind.duplicatePod ∨
            completePodKind e = ErrKind.internalError))) := by
  refine ⟨?_, ?_, ?_⟩
  · intro db hu
    exact ⟨fun u req now y => atMostOne_completePod hu,
           fun cfg => atMostOne_lockPod hu,
           fun u req now => atMostOne_of_pods_eq (updatePackage_pods db u req now) hu,
           fun u pid now es => atMostOne_of_pods_eq (driverPickup_pods db u pid now es) hu,
           fun u req => atMostOne_of_pods_eq (logAudit_pods db u req) hu⟩
  · intro ca cb s sched hu
    exact atMostOne_cpRunPair hu sched
  · intro staff0 db ca cb i k sched hstaff haa hab hk hnp hst ra rb hra hrb
    have hinv := cpRunPair_inv haa hab
      (s := ⟨db, .start, .start⟩)
      ⟨hstaff, k, hk, Or.inl ⟨hnp, hst, trivial, trivial⟩⟩ sched
    obtain ⟨-, k', hk', hcase⟩ := hinv
    rcases hcase with ⟨-, -, hna, -⟩ | ⟨-, hwon⟩
    · rw [hra] at hna
      exact hna.elim
    · rcases hwon with ⟨hwa, hlb⟩ | ⟨hwb, hla⟩
      · rw [hra] at hwa
        rw [hrb] at hlb
        cases ra with
        | error e => exact hwa.elim
        | ok pod =>
          cases rb with
          | ok pod2 => exact hlb.elim
          | error e =>
              refine Or.inl ⟨⟨pod, rfl⟩, e, rfl, ?_⟩
              rcases hlb with hlb | hlb <;> rw [hlb]
              · exact Or.inl rfl
              · exact Or.inr rfl
      · rw [hrb] at hwb
        rw [hra] at hla
        cases rb with
        | error e => exact hwb.elim
        | ok pod =>
          cases ra with
          | ok pod2 => exact hla.elim
          | error e =>
              refine Or.inr ⟨⟨pod, rfl⟩, e, rfl, ?_⟩
              rcases hla with hla | hla <;> rw [hla]
              · exact Or.inl rfl
              · exact Or.inr rfl

/-- Witness for C1 amended at the fixtures: a sequential `complete-pod`
    preserves uniqueness, and the concrete A,B,A,B interleaving ends with
    caller A holding the pod and caller B holding an error of kind
    `DuplicatePod` or `InternalError`. -/
theorem C1_pod_uniqueness_and_race_witness :
    AtMostOnePodPerPackage (completePod fxDbPending 12 fxCpReq "t1" 2025).1 ∧
    (∃ ra rb,
      (cpRunPair { userId := 11, req := fxCpReq, now := "t1", year := 2025 }
          { userId := 12, req := fxCpReq, now := "t2", year := 2025 }
          ⟨fxDbPending, .start, .start⟩ [true, false, true, false]).phA =
        .done ra ∧
      (cpRunPair { userId := 11, req := fxCpReq, now := "t1", year := 2025 }
          { userId := 12, req := fxCpReq, now := "t2", year := 2025 }
          ⟨fxDbPending, .start, .start⟩ [true, false, true, false]).phB =
        .done rb ∧
      (((∃ pod, ra = .ok pod) ∧
        ∃ e, rb = .error e ∧ (completePodKind e = ErrKind.duplicatePod ∨
          completePodKind e = ErrKind.internalError)) ∨
       ((∃ pod, rb = .ok pod) ∧
        ∃ e, ra = .error e ∧ (completePodKind e = ErrKind.duplicatePod ∨
          completePodKind e = ErrKind.internalError)))) := by
  have hu : AtMostOnePodPerPackage fxDbPending := by
    intro p hp
    simp [fxDbPending] at hp
  refine ⟨(C1_pod_uniqueness_and_race.1 fxDbPending hu).1 12 fxCpReq "t1" 2025,
          _, _, rfl, rfl, ?_⟩
  exact C1_pod_uniqueness_and_race.2.2 fxStaff fxDbPending
    { userId := 11, req := fxCpReq, now := "t1", year := 2025 }
    { userId := 12, req := fxCpReq, now := "t2", year := 2025 }
    100 (fxPkg .pending) [true, false, true, false] rfl
    ⟨rfl, by decide, by decide, by decide, stAdmin, rfl, rfl, Or.inr (Or.inr rfl)⟩
    ⟨rfl, by decide, by decide, by decide, stColl, rfl, rfl, Or.inl rfl⟩
    ⟨by simp [fxDbPending], rfl, by intro q hq _; simpa [fxDbPending] using hq⟩
    (by intro q hq; simp [fxDbPending] at hq)
    (by simp [fxPkg])
    _ _ rfl rfl

/-- C3: `lock-pod` fails with an already-locked error exactly when the
    pod's `is_locked` is already true (first conjunct, for a resolved
    active caller and an existing pod); a successful lock is exactly the
    transition of `is_locked` from false to true (second conjunct); and of
    two interleaved lock invocations on the same unlocked pod that both
    finish, exactly one succeeds and the loser observes an error of kind
    `AlreadyLocked` — never a silent overwrite (third conjunct, over every
    schedule). -/
theorem C3_lock_already_locked_iff_and_race :
    (∀ (db : DB) (cfg : LockCfg) (prof : StaffProfile) (pod : Pod),
      findStaffByUser db cfg.userId = some prof → prof.isActive = true →
      findPod db cfg.pod_id = some pod →
      ((∃ e, (lockPod db cfg).2 = .error e ∧
          lockPodKind e = ErrKind.alreadyLocked) ↔ pod.isLocked = true)) ∧
    (∀ (db : DB) (cfg : LockCfg) (prof : StaffProfile) (pod q : Pod),
      findStaffByUser db cfg.userId = some prof → prof.isActive = true →
      findPod db cfg.pod_id = some pod →
      (lockPod db cfg).2 = .ok q →
      pod.isLocked = false ∧ q.isLocked = true) ∧
    (∀ (staff0 : List StaffProfile) (db : DB) (ca cb : LockCfg) (i sid : Nat)
       (p : Pod) (sched : List Bool),
      db.staff = staff0 → ca.pod_id = i → cb.pod_id = i →
      StaffAuthLock staff0 ca sid → StaffAuthLock staff0 cb sid →
      PodsOK db i p → p.staffId = sid → p.isLocked = false →
      ∀ ra rb,
        (lockRunPair ca cb ⟨db, .start, .start⟩ sched).phA = .done ra →
        (lockRunPair ca cb ⟨db, .start, .start⟩ sched).phB = .done rb →
        ((∃ q, ra = .ok q) ∧
          ∃ e, rb = .error e ∧ lockPodKind e = ErrKind.alreadyLocked) ∨
        ((∃ q, rb = .ok q) ∧
          ∃ e, ra = .error e ∧ lockPodKind e = ErrKind.alreadyLocked)) := by
  refine ⟨?_, ?_, ?_⟩
  · intro db cfg prof pod h1 h2 h3
    constructor
    · rintro ⟨e, he, hk⟩
      by_contra hl
      have hlf : pod.isLocked = false := by simpa using hl
      by_cases hauth : pod.staffId = prof.id ∨ prof.role = Role.admin
      · have hok := lockPod_ok h1 h2 h3 hlf hauth
        rw [hok] at he
        exact absurd he (by simp)
      · push_neg at hauth
        obtain ⟨hs, hr⟩ := hauth
        have hden : (lockPod db cfg).2 = .error .lockDenied := by
          unfold lockPod lockPodStart
          simp [h1, h2, h3, hlf, hs, hr]
        rw [hden] at he
        have : LockPodErr.lockDenied = e := by simpa using he
        rw [← this] at hk
        exact absurd hk (by simp [lockPodKind])
    · intro hl
      have hpre : (lockPod db cfg).2 = .error .alreadyLockedPre := by
        unfold lockPod lockPodStart
        simp [h1, h2, h3, hl]
      exact ⟨.alreadyLockedPre, hpre, rfl⟩
  · intro db cfg prof pod q h1 h2 h3 hq
    by_cases hl : pod.isLocked = true
    · have hpre : (lockPod db cfg).2 = .error .alreadyLockedPre := by
        unfold lockPod lockPodStart
        simp [h1, h2, h3, hl]
      rw [hpre] at hq
      exact absurd hq (by simp)
    · have hlf : pod.isLocked = false := by simpa using hl
      by_cases hauth : pod.staffId = prof.id ∨ prof.role = Role.admin
      · have hok := lockPod_ok h1 h2 h3 hlf hauth
        rw [hok] at hq
        have : lockUpdateData cfg pod = q := by simpa using hq
        rw [← this]
        exact ⟨hlf, lockUpdateData_isLocked cfg pod⟩
      · push_neg at hauth
        obtain ⟨hs, hr⟩ := hauth
        have hden : (lockPod db cfg).2 = .error .lockDenied := by
          unfold lockPod lockPodStart
          simp [h1, h2, h3, hlf, hs, hr]
        rw [hden] at hq
        exact absurd hq (by simp)
  · intro staff0 db ca cb i sid p sched hstaff hca hcb haa hab hp hsid hl
    intro ra rb hra hrb
    have hinv := lockRunPair_inv hca hcb haa hab
      (s := ⟨db, .start, .start⟩)
      ⟨hstaff, p, hp, hsid, Or.inl ⟨hl, trivial, trivial⟩⟩ sched
    obtain ⟨-, p', hp', -, hcase⟩ := hinv
    rcases hcase with ⟨-, hna, -⟩ | ⟨-, hwon⟩
    · rw [hra] at hna
      exact hna.elim
    · rcases hwon with ⟨hwa, hlb⟩ | ⟨hwb, hla⟩
      · rw [hra] at hwa
        rw [hrb] at hlb
        cases ra with
        | error e => exact hwa.elim
        | ok q =>
          cases rb with
          | ok q2 => exact hlb.elim
          | error e => exact Or.inl ⟨⟨q, rfl⟩, ⟨e, rfl, hlb⟩⟩
      · rw [hrb] at hwb
        rw [hra] at hla
        cases rb with
        | error e => exact hwb.elim
        | ok q =>
          cases ra with
          | ok q2 => exact hla.elim
          | error e => exact Or.inr ⟨⟨q, rfl⟩, ⟨e, rfl, hla⟩⟩

/-- Witness for C3 at the fixtures: the locked pod yields an already-locked
    error; a successful lock flips `is_locked` from false to true; and for
    the interleaved schedule A,B,A,B from the unlocked fixture the creator
    wins while the admin loses with an already-locked kind error. -/
theorem C3_lock_already_locked_iff_and_race_witness :
    (∃ e, (lockPod fxDbLockedPending fxLockCfgPdf).2 = .error e ∧
      lockPodKind e = ErrKind.alreadyLocked) ∧
    (fxPodUnlocked.isLocked = false ∧
      (lockUpdateData fxLockCfgPdf fxPodUnlocked).isLocked = true) ∧
    (((∃ q, (Except.ok (lockUpdateData fxLockCfgPdf fxPodUnlocked) :
          Except LockPodErr Pod) = .ok q) ∧
      ∃ e, (Except.error LockPodErr.lockConflict : Except LockPodErr Pod) =
          .error e ∧ lockPodKind e = ErrKind.alreadyLocked) ∨
     ((∃ q, (Except.error LockPodErr.lockConflict : Except LockPodErr Pod) =
          .ok q) ∧
      ∃ e, (Except.ok (lockUpdateData fxLockCfgPdf fxPodUnlocked) :
          Except LockPodErr Pod) = .error e ∧
        lockPodKind e = ErrKind.alreadyLocked)) := by
  refine ⟨?_, ?_, ?_⟩
  · exact (C3_lock_already_locked_iff_and_race.1 fxDbLockedPending
      fxLockCfgPdf stColl fxPodLocked rfl rfl rfl).mpr rfl
  · exact C3_lock_already_locked_iff_and_race.2.1 fxDbUnlockedPending
      fxLockCfgPdf stColl fxPodUnlocked (lockUpdateData fxLockCfgPdf fxPodUnlocked)
      rfl rfl rfl rfl
  · exact C3_lock_already_locked_iff_and_race.2.2 fxStaff fxDbUnlockedPending
      fxLockCfgPdf fxLockCfgNoPdf 200 2 fxPodUnlocked
      [true, false, true, false] rfl rfl rfl
      ⟨stColl, rfl, rfl, Or.inl rfl⟩ ⟨stAdmin, rfl, rfl, Or.inr rfl⟩
      ⟨by simp [fxDbUnlockedPending, fxDbPending], rfl,
        by intro q hq _; simpa [fxDbUnlockedPending, fxDbPending] using hq⟩
      rfl rfl _ _ rfl rfl

end GetALot
